import Mathlib

/-!
NppFTP: the FTP session engine (`src/FTPSession.cpp`)

A shallow embedding of `FTPSession` and of the objects it drives.

* C strings are lists of characters (the bytes before the terminating NUL).
  The source copies paths into stack buffers of `MAX_PATH` bytes without
  testing their length (`strcpy`, `sprintf`); a string of `MAX_PATH` bytes
  or more does not fit with its NUL and the write runs past the buffer.
* A pointer that the session owns (`m_mainWrapper`, `m_mainQueue`,
  `m_rootObject`, ...) is an `Option` holding the pointed-to object; `none`
  is `NULL`.  The profile is shared and reference counted, so it lives in a
  store (`World.profiles`) and `m_currentProfile` is an index into it.
* Every method is a function `World → ... → Option (Int × World)`.  The
  outer `none` means that the call dereferences a null (or dangling)
  pointer or writes past a buffer: the C++ behaviour is undefined there.
* Calls received by collaborators that are not part of the session state
  (the confirmation dialog, the Windows timer queue, the notification sink)
  are appended to `World.events`.
* The worker threads of the two queues are not part of `FTPSession.cpp`; a
  queue is the list of operations that were added and not yet removed.
-/

namespace NppFTP

/-- A C string without its terminating NUL. -/
abbrev CStr := List Char

/-- The Windows constant `MAX_PATH` (260): the size in bytes of the path
buffers `char dir[MAX_PATH]`, `char currentPath[MAX_PATH]` and
`char tempstr[MAX_PATH]`.  Such a buffer holds a string of at most
`MAX_PATH - 1` bytes and its NUL. -/
def MAX_PATH : Nat := 260

/-- The value of a C `int` expression: wrap-around to 32 bits, two's complement. -/
def toInt32 (z : Int) : Int := (z + 2 ^ 31) % 2 ^ 32 - 2 ^ 31

/-- The conversion `(DWORD) z` of an `int`. -/
def toDWORD (z : Int) : Nat := (z % 2 ^ 32).toNat

/-- The value a `DWORD` variable holds after it is assigned `n`. -/
def asDWORD (n : Nat) : Nat := n % 2 ^ 32

/-- The Windows constant `IDYES`, the answer "Yes" of a `MB_YESNO` message box. -/
def IDYES : Int := 6

/-- The Windows constant `IDNO`. -/
def IDNO : Int := 7

/-- The enumeration `Transfer_Mode` (binary, ASCII, ...), kept as its numeric value. -/
abbrev Transfer_Mode := Nat

/-! ## C string functions -/

/-- Worker of `strrchr`: scan from index `i`, remembering the last match. -/
def strrchrAux (c : Char) : CStr → Nat → Option Nat → Option Nat
  | [], _, last => last
  | x :: xs, i, last => strrchrAux c xs (i + 1) (if x = c then some i else last)

/-- The C function `strrchr(s, c)`: the index of the last occurrence of `c`
in `s`, `none` for the null result. -/
def strrchr (s : CStr) (c : Char) : Option Nat := strrchrAux c s 0 none

/-- One call of `strtok(s, "/")` on the not yet consumed text `s`: skip the
leading delimiters; the null result when nothing is left; otherwise the
token up to the next delimiter, and the text after that delimiter, from
which `strtok(NULL, "/")` continues. -/
def strtok (s : CStr) : Option (CStr × CStr) :=
  match s.dropWhile (fun c => c = '/') with
  | [] => none
  | c :: cs =>
    some ((c :: cs).takeWhile (fun x => x ≠ '/'), ((c :: cs).dropWhile (fun x => x ≠ '/')).drop 1)

/-- Worker of `strtokAll`: `acc` is the token being read, reversed. -/
def strtokAux : CStr → CStr → List CStr
  | acc, [] => if acc = [] then [] else [acc.reverse]
  | acc, c :: cs =>
    if c = '/' then
      (if acc = [] then strtokAux [] cs else acc.reverse :: strtokAux [] cs)
    else strtokAux (c :: acc) cs

/-- The tokens that the loop `p = strtok(s, "/"); while (p) { ...; p = strtok(NULL, "/"); }`
visits, in order.  The loop bodies of the source never write to the buffer
being tokenised, so the sequence of tokens depends on `s` alone. -/
def strtokAll (s : CStr) : List CStr := strtokAux [] s

/-! ## FileObject

`FileObject.cpp` is not among the sources; the class is modelled from its
description in the specification and from the way `FTPSession.cpp` uses it.
-/

/-- Modelled from the spec: `FileObject` (FileObject.cpp is missing), "name,
is-directory flag, needs-refresh flag, opaque UI-correlation handle, ordered
list of child FileObjects, back-reference to parent".  `addr` is the address
of the object (its identity), `data` the UI handle with `0` for `NULL`, and
`parent` the address of the parent.  The specification gives no initial
value for the needs-refresh flag, so `needRefresh` is `some b` once
`SetRefresh(b)` was called on the object and `none` as long as the flag is
the one the constructor left. -/
inductive FileObject where
  | mk (addr : Nat) (path name : CStr) (isDir isLink : Bool) (needRefresh : Option Bool)
       (data : Nat) (parent : Option Nat) (children : List FileObject)

namespace FileObject

/-- The address of the object. -/
def addr : FileObject → Nat
  | mk a _ _ _ _ _ _ _ _ => a

/-- The full path the object was constructed with. -/
def GetPath : FileObject → CStr
  | mk _ p _ _ _ _ _ _ _ => p

/-- Modelled from the spec: `GetName()`, the name of the path segment. -/
def GetName : FileObject → CStr
  | mk _ _ n _ _ _ _ _ _ => n

/-- The is-directory flag. -/
def isDir : FileObject → Bool
  | mk _ _ _ d _ _ _ _ _ => d

/-- Modelled from the spec: `GetData()`, the opaque UI-correlation handle (`0` is `NULL`). -/
def GetData : FileObject → Nat
  | mk _ _ _ _ _ _ d _ _ => d

/-- The address of the parent object, `none` while no parent is set. -/
def GetParent : FileObject → Option Nat
  | mk _ _ _ _ _ _ _ p _ => p

/-- The ordered list of children. -/
def children : FileObject → List FileObject
  | mk _ _ _ _ _ _ _ _ c => c

/-- Modelled from the spec: `GetChildCount()`, the number of children. -/
def GetChildCount (o : FileObject) : Nat := o.children.length

/-- Modelled from the spec: `GetChild(i)`, the child at position `i`. -/
def GetChild (o : FileObject) (i : Nat) : Option FileObject := o.children.get? i

/-- Modelled from the spec: `GetChildByName(name)`, the first child of that
name, `none` (NULL) when there is none. -/
def GetChildByName (o : FileObject) (filename : CStr) : Option FileObject :=
  o.children.find? (fun c => decide (c.GetName = filename))

/-- Modelled from the spec: `SetRefresh(b)`. -/
def SetRefresh : FileObject → Bool → FileObject
  | mk a p n d l _ dt pr c, b => mk a p n d l (some b) dt pr c

/-- Modelled from the spec: `SetParent(parent)`, which stores the back-reference. -/
def SetParent : FileObject → Nat → FileObject
  | mk a p n d l r dt _ c, parent => mk a p n d l r dt (some parent) c

/-- Modelled from the spec: `AddChild(child)` appends the child to the ordered
list of children ("insertion order = display order") and makes this object
its parent.  "Names are unique among siblings": a child whose name one of
the children already carries is not added, and the list stays as it is. -/
def AddChild : FileObject → FileObject → FileObject
  | mk a p n d l r dt pr c, child =>
    if c.any (fun x => decide (x.GetName = child.GetName)) then mk a p n d l r dt pr c
    else mk a p n d l r dt pr (c ++ [child.SetParent a])

/-- Modelled from the spec: `PU::FindExternalFilename(path)`, the text after
the last `/` of an external path. -/
def FindExternalFilename (path : CStr) : CStr :=
  (path.reverse.takeWhile (fun c => c ≠ '/')).reverse

/-- Modelled from the spec: the constructor `FileObject(path, isDir, isLink)`
at address `a`.  The name is the last segment of the path; no `SetRefresh`
call yet, no UI handle, no parent and no children. -/
def new (a : Nat) (path : CStr) (isDir isLink : Bool) : FileObject :=
  mk a path (FindExternalFilename path) isDir isLink none 0 none []

end FileObject

mutual
/-- Number of objects in the tree below and including an object. -/
def FileObject.nodeCount : FileObject → Nat
  | .mk _ _ _ _ _ _ _ _ c => 1 + FileObject.nodeCountList c
/-- Number of objects in a list of trees. -/
def FileObject.nodeCountList : List FileObject → Nat
  | [] => 0
  | x :: xs => x.nodeCount + FileObject.nodeCountList xs
end

mutual
/-- Decision procedure for equality of trees. -/
def FileObject.decEq : (a b : FileObject) → Decidable (a = b)
  | .mk a1 a2 a3 a4 a5 a6 a7 a8 a9, .mk b1 b2 b3 b4 b5 b6 b7 b8 b9 =>
    if h : a1 = b1 ∧ a2 = b2 ∧ a3 = b3 ∧ a4 = b4 ∧ a5 = b5 ∧ a6 = b6 ∧ a7 = b7 ∧ a8 = b8 then
      match FileObject.decEqList a9 b9 with
      | isTrue h9 => isTrue (by
          obtain ⟨h1, h2, h3, h4, h5, h6, h7, h8⟩ := h
          subst h1 h2 h3 h4 h5 h6 h7 h8 h9; rfl)
      | isFalse h9 => isFalse (by intro e; injection e with _ _ _ _ _ _ _ _ e9; exact h9 e9)
    else isFalse (by
      intro e; injection e with e1 e2 e3 e4 e5 e6 e7 e8 _
      exact h ⟨e1, e2, e3, e4, e5, e6, e7, e8⟩)
/-- Decision procedure for equality of lists of trees. -/
def FileObject.decEqList : (a b : List FileObject) → Decidable (a = b)
  | [], [] => isTrue rfl
  | [], _ :: _ => isFalse (by intro e; cases e)
  | _ :: _, [] => isFalse (by intro e; cases e)
  | x :: xs, y :: ys =>
    match FileObject.decEq x y with
    | isTrue h1 =>
      match FileObject.decEqList xs ys with
      | isTrue h2 => isTrue (by subst h1 h2; rfl)
      | isFalse h2 => isFalse (by intro e; injection e with _ e2; exact h2 e2)
    | isFalse h1 => isFalse (by intro e; injection e with e1 _; exact h1 e1)
end

instance : DecidableEq FileObject := FileObject.decEq

/-! ## Transport clients, operations, queues, profiles -/

/-- Which of the two transport clients of a session. -/
inductive ClientId where
  | main
  | transfer
deriving DecidableEq

/-- Modelled from the spec: the transport client (`FTPClientWrapper`, not among
the sources).  Of its state the session only sets the trusted certificates
and requests aborts. -/
structure FTPClientWrapper where
  /-- the vector handed to `SetCertificates` (`none` is NULL) -/
  certificates : Option Nat
  /-- number of `Abort()` requests received -/
  aborts : Nat
deriving DecidableEq

namespace FTPClientWrapper

/-- Modelled from the spec: `SetCertificates(v)`. -/
def SetCertificates (c : FTPClientWrapper) (v : Option Nat) : FTPClientWrapper :=
  { c with certificates := v }

/-- Modelled from the spec: `Clone()` produces "an independent connection
sharing credentials/trust"; it is a new client, never NULL. -/
def Clone (c : FTPClientWrapper) : FTPClientWrapper :=
  { certificates := c.certificates, aborts := 0 }

/-- Modelled from the spec: `Abort()` requests the abort of the operation in
progress ("best-effort and asynchronous"). -/
def Abort (c : FTPClientWrapper) : FTPClientWrapper :=
  { c with aborts := c.aborts + 1 }

end FTPClientWrapper

/-- The operations of `QueueOperation.h` that `FTPSession.cpp` constructs,
each with its constructor arguments (`hNotify` is the window handle of the
notification sink). -/
inductive QueueOperation where
  | QueueConnect (hNotify : Nat) (notifyCode : Int)
  | QueueDisconnect (hNotify : Nat)
  | QueueGetDir (hNotify : Nat) (dir : CStr) (parentDirs : List CStr)
  | QueueDownload (hNotify : Nat) (externalFile localFile : CStr) (tMode : Transfer_Mode)
      (code : Int)
  | QueueDownloadHandle (hNotify : Nat) (externalFile : CStr) (target : Nat)
      (tMode : Transfer_Mode)
  | QueueUpload (hNotify : Nat) (externalFile localFile : CStr) (tMode : Transfer_Mode)
      (code : Int)
  | QueueNoOp (hNotify : Nat)
  | QueueCreateDir (hNotify : Nat) (path : CStr)
  | QueueRemoveDir (hNotify : Nat) (path : CStr)
  | QueueCreateFile (hNotify : Nat) (path : CStr)
  | QueueDeleteFile (hNotify : Nat) (path : CStr)
  | QueueRenameFile (hNotify : Nat) (oldpath newpath : CStr)
deriving DecidableEq

/-- Modelled from the spec: the Operation Queue (`FTPQueue`, not among the
sources): "an ordered sequence of pending QueueOperations and a bound
transport-client handle". -/
structure FTPQueue where
  /-- the client the queue was constructed with -/
  client : ClientId
  /-- pending operations, the one in flight first -/
  ops : List QueueOperation
  /-- whether the worker was started by `Initialize()` -/
  active : Bool
deriving DecidableEq

namespace FTPQueue

/-- Modelled from the spec: the constructor `FTPQueue(wrapper)`. -/
def new (c : ClientId) : FTPQueue := { client := c, ops := [], active := false }

/-- Modelled from the spec: `Initialize()` starts the worker. -/
def Initialize (q : FTPQueue) : FTPQueue := { q with active := true }

/-- Modelled from the spec: `AddQueueOp(op)` "appends to the tail". -/
def AddQueueOp (q : FTPQueue) (op : QueueOperation) : FTPQueue :=
  { q with ops := q.ops ++ [op] }

/-- Modelled from the spec: `GetQueueSize()` "returns count of pending+in-flight". -/
def GetQueueSize (q : FTPQueue) : Nat := q.ops.length

/-- Modelled from the spec: `ClearQueue()` "discards all pending operations". -/
def ClearQueue (q : FTPQueue) : FTPQueue := { q with ops := [] }

end FTPQueue

/-- Modelled from the spec: the profile (`FTPProfile`, not among the sources),
"hostname/username, initial directory, noop interval, ..., ref-counted
sharing". -/
structure FTPProfile where
  /-- the reference count of `RefObject` -/
  refCount : Nat
  hostname : CStr
  username : CStr
  initialDir : CStr
  /-- the configured keep-alive interval in seconds -/
  noOp : Int
  /-- the client that `CreateWrapper()` constructs, `none` when it returns NULL -/
  wrapper : Option FTPClientWrapper
deriving DecidableEq

namespace FTPProfile

/-- Modelled from the spec: `AddRef()` takes a hold on the profile. -/
def AddRef (p : FTPProfile) : FTPProfile := { p with refCount := p.refCount + 1 }

/-- Modelled from the spec: `Release()` gives a hold back. -/
def Release (p : FTPProfile) : FTPProfile := { p with refCount := p.refCount - 1 }

/-- The getter `int GetNoOp()`: the interval as a C `int`. -/
def GetNoOp (p : FTPProfile) : Int := toInt32 p.noOp

/-- Modelled from the spec: `CreateWrapper()`. -/
def CreateWrapper (p : FTPProfile) : Option FTPClientWrapper := p.wrapper

end FTPProfile

/-- Modelled from the spec: the settings object; of it the session only uses
the global cache, whose environment is a (hostname, username) pair. -/
structure FTPSettings where
  cacheEnvironment : Option (CStr × CStr)
deriving DecidableEq

/-- The window of the plugin; the session reads its handle. -/
structure FTPWindow where
  hwnd : Nat
deriving DecidableEq

/-- Functions of other files of the repository whose results the session
passes on without inspecting them. -/
structure Collaborators where
  /-- the result code of `FTPClientWrapper::Abort()` -/
  AbortResult : FTPClientWrapper → Int
  /-- `FTPQueue::CancelQueueOp(op)`: result code and the queue afterwards -/
  CancelQueueOp : FTPQueue → QueueOperation → Int × FTPQueue
  /-- `FTPProfile::GetCacheLocal(external, buffer, size)`: result code and buffer -/
  GetCacheLocal : FTPProfile → CStr → Int × CStr
  /-- `FTPProfile::GetCacheExternal(local, buffer, size)`: result code and buffer -/
  GetCacheExternal : FTPProfile → CStr → Int × CStr
  /-- `FTPProfile::GetFileTransferMode(localname)` -/
  GetFileTransferMode : FTPProfile → CStr → Transfer_Mode
  /-- `SU::Utf8ToTChar` -/
  Utf8ToTChar : CStr → CStr
  /-- `PU::FindLocalFilename` -/
  FindLocalFilename : CStr → CStr
  /-- `PU::ConcatLocal(target, name, buffer, size)`: the buffer afterwards -/
  ConcatLocal : CStr → CStr → CStr
  /-- `PU::ConcatLocalToExternal(target, name, buffer, size)`: the buffer afterwards -/
  ConcatLocalToExternal : CStr → CStr → CStr

/-- A call made by the session to a collaborator outside its own state. -/
inductive Event where
  /-- the confirmation dialog `::MessageBox(..., MB_YESNO)` was shown -/
  | MessageBox
  /-- `CreateTimerQueueTimer` was called with this period (ms); `ok`: it succeeded -/
  | CreateTimerQueueTimer (period : Nat) (ok : Bool)
  /-- `DeleteTimerQueueTimer` was called on this handle -/
  | DeleteTimerQueueTimer (handle : Nat)
  /-- the disconnect operation of `Clear()` ran on this client, with its
  start and end notification sent to `hNotify` -/
  | Disconnect (client : ClientId) (hNotify : Nat)
deriving DecidableEq

/-! ## The session -/

/-- The data members of `FTPSession`.  The header that declares them is not
among the sources: window and timer handles are numbers with `0` for NULL,
and `m_timerCount` is a counter without an upper bound. -/
structure FTPSession where
  m_currentProfile : Option Nat
  m_ftpSettings : Option FTPSettings
  m_mainWrapper : Option FTPClientWrapper
  m_transferWrapper : Option FTPClientWrapper
  m_mainQueue : Option FTPQueue
  m_transferQueue : Option FTPQueue
  m_running : Bool
  m_hNotify : Nat
  m_ftpWindow : Option FTPWindow
  m_isInit : Bool
  m_rootObject : Option FileObject
  m_certificates : Option Nat
  m_timerHandle : Nat
  m_timerCount : Nat
  m_timerIsInit : Bool
deriving DecidableEq

/-- The session together with the objects it shares with its environment. -/
structure World where
  session : FTPSession
  /-- the profiles; a profile pointer is an index into this list -/
  profiles : List FTPProfile
  /-- the address the next `new FileObject` returns -/
  nextAddr : Nat
  /-- the calls made to collaborators so far, oldest first -/
  events : List Event
deriving DecidableEq

namespace World

/-- The profile `m_currentProfile` points to; `none` when the pointer is
null or does not point to a profile. -/
def profile (w : World) : Option FTPProfile :=
  match w.session.m_currentProfile with
  | none => none
  | some i => w.profiles[i]?

/-- Replace the session of a world. -/
def withSession (w : World) (s : FTPSession) : World := { w with session := s }

/-- Record a call to a collaborator. -/
def emit (w : World) (e : Event) : World := { w with events := w.events ++ [e] }

end World

namespace FTPSession

/-- The constructor `FTPSession::FTPSession()`.  Its initialiser list does
not mention `m_timerHandle`, `m_timerCount` and `m_timerIsInit`: their
values after construction are indeterminate, here `h`, `c` and `b`. -/
def new (h c : Nat) (b : Bool) : FTPSession :=
  { m_currentProfile := none, m_ftpSettings := none,
    m_mainWrapper := none, m_transferWrapper := none,
    m_mainQueue := none, m_transferQueue := none,
    m_running := false, m_hNotify := 0, m_ftpWindow := none, m_isInit := false,
    m_rootObject := none, m_certificates := none,
    m_timerHandle := h, m_timerCount := c, m_timerIsInit := b }

/-- `FTPSession::Init(ftpWindow, ftpSettings)`. -/
def Init (w : World) (ftpWindow : Option FTPWindow) (ftpSettings : Option FTPSettings) :
    Option (Int × World) :=
  if w.session.m_isInit then some (-1, w)
  else
    match ftpWindow with
    | none => none
    | some win =>
      some (0, w.withSession
        { w.session with
          m_ftpWindow := some win, m_ftpSettings := ftpSettings, m_hNotify := win.hwnd,
          m_isInit := true, m_timerHandle := 0, m_timerCount := 0, m_timerIsInit := false })

/-- `FTPSession::Deinit()`. -/
def Deinit (w : World) : Option (Int × World) :=
  if !w.session.m_isInit then some (0, w)
  else some (0, w.withSession
    { w.session with m_ftpWindow := none, m_hNotify := 0, m_isInit := false })

/-- `FTPSession::SetCertificates(x509Vect)`. -/
def SetCertificates (w : World) (x509Vect : Option Nat) : Option (Int × World) :=
  some (0, w.withSession { w.session with m_certificates := x509Vect })

/-- `FTPSession::StartSession(sessionProfile)`; the argument is the index of
the profile in the store. -/
def StartSession (w : World) (sessionProfile : Nat) : Option (Int × World) :=
  if w.session.m_running then some (-1, w)
  else
    -- m_currentProfile = sessionProfile; m_currentProfile->AddRef();
    match w.profiles[sessionProfile]? with
    | none => none
    | some p0 =>
      let p := p0.AddRef
      -- m_ftpSettings->GetGlobalCache()->SetEnvironment(hostname, username);
      match w.session.m_ftpSettings with
      | none => none
      | some _ =>
        let settings : FTPSettings := { cacheEnvironment := some (p.hostname, p.username) }
        -- m_mainWrapper = m_currentProfile->CreateWrapper();
        match p.CreateWrapper with
        | none =>
          some (-1,
            { w with
              session := { w.session with
                m_currentProfile := none, m_ftpSettings := some settings,
                m_mainWrapper := none }
              profiles := w.profiles.set sessionProfile p.Release })
        | some created =>
          let mainWrapper := created.SetCertificates w.session.m_certificates
          let transferWrapper := mainWrapper.Clone
          let root := FileObject.new w.nextAddr ['/'] true false
          some (0,
            { w with
              session := { w.session with
                m_currentProfile := some sessionProfile, m_ftpSettings := some settings,
                m_mainWrapper := some mainWrapper,
                m_transferWrapper := some transferWrapper,
                m_mainQueue := some (FTPQueue.new ClientId.main).Initialize,
                m_transferQueue := some (FTPQueue.new ClientId.transfer).Initialize,
                m_rootObject := some (root.SetParent root.addr),
                m_running := true }
              profiles := w.profiles.set sessionProfile p
              nextAddr := w.nextAddr + 1 })

/-- The disconnect block of `Clear()` for one client: when the client
exists, the disconnect operation runs on it (with its two notifications). -/
def Clear.disconnect (w : World) (c : ClientId) (wrapper : Option FTPClientWrapper) : World :=
  match wrapper with
  | none => w
  | some _ => w.emit (Event.Disconnect c w.session.m_hNotify)

/-- `FTPSession::Clear()`: both queues are cleared, both clients are asked
to abort, the queues are stopped and deleted, the disconnect operation is
performed on each client, and the clients are deleted.  All four pointers
are null afterwards. -/
def Clear (w : World) : Int × World :=
  let s := w.session
  -- ClearQueue() on both queues, Abort() on both clients
  let w1 := w.withSession
    { s with m_mainQueue := s.m_mainQueue.map FTPQueue.ClearQueue,
             m_transferQueue := s.m_transferQueue.map FTPQueue.ClearQueue,
             m_transferWrapper := s.m_transferWrapper.map FTPClientWrapper.Abort,
             m_mainWrapper := s.m_mainWrapper.map FTPClientWrapper.Abort }
  -- Deinitialize(), delete and null both queues
  let w2 := w1.withSession { w1.session with m_transferQueue := none, m_mainQueue := none }
  -- disconnect, delete and null the transfer client, then the main client
  let w3 := Clear.disconnect w2 ClientId.transfer w2.session.m_transferWrapper
  let w4 := w3.withSession { w3.session with m_transferWrapper := none }
  let w5 := Clear.disconnect w4 ClientId.main w4.session.m_mainWrapper
  (0, w5.withSession { w5.session with m_mainWrapper := none })

/-- The part of `TerminateSession()` after the confirmation, from
`m_running = false` to the end. -/
def TerminateSession.teardown (w0 : World) : Option (Int × World) :=
  let w1 := w0.withSession { w0.session with m_running := false }
  let w2 :=
    if w1.session.m_timerIsInit then
      (w1.emit (Event.DeleteTimerQueueTimer w1.session.m_timerHandle)).withSession
        { w1.session with m_timerCount := 0, m_timerIsInit := false }
    else w1
  let w3 := (Clear w2).2
  -- if (m_currentProfile) m_currentProfile->Release();
  match w3.session.m_currentProfile with
  | none =>
    some (0, w3.withSession { w3.session with m_rootObject := none })
  | some i =>
    match w3.profiles[i]? with
    | none => none
    | some p =>
      some (0,
        { w3 with
          session := { w3.session with m_currentProfile := none, m_rootObject := none }
          profiles := w3.profiles.set i p.Release })

/-- `FTPSession::TerminateSession()`; `answer` is what `::MessageBox`
returns if the dialog is shown. -/
def TerminateSession (w : World) (answer : Int) : Option (Int × World) :=
  if !w.session.m_running then some (0, w)
  else
    match w.session.m_transferQueue with
    | none => none
    | some tq =>
      let asked := decide (tq.GetQueueSize > 0)
      let w0 := if asked then w.emit Event.MessageBox else w
      if asked && decide (answer ≠ IDYES) then some (-1, w0)
      else TerminateSession.teardown w0

/-- `FTPSession::IsConnected()`. -/
def IsConnected (w : World) : Bool := w.session.m_running

/-- `FTPSession::GetCurrentProfile()`. -/
def GetCurrentProfile (w : World) : Option Nat := w.session.m_currentProfile

/-- Append an operation to the control queue (`m_mainQueue->AddQueueOp(op)`),
returning 0; undefined when the queue pointer is null. -/
def enqueueMain (w : World) (op : QueueOperation) : Option (Int × World) :=
  match w.session.m_mainQueue with
  | none => none
  | some q => some (0, w.withSession { w.session with m_mainQueue := some (q.AddQueueOp op) })

/-- Append an operation to the transfer queue (`m_transferQueue->AddQueueOp(op)`),
returning 0; undefined when the queue pointer is null. -/
def enqueueTransfer (w : World) (op : QueueOperation) : Option (Int × World) :=
  match w.session.m_transferQueue with
  | none => none
  | some q =>
    some (0, w.withSession { w.session with m_transferQueue := some (q.AddQueueOp op) })

/-- `FTPSession::Connect()`; `timer` is the outcome of `CreateTimerQueueTimer`
if it is called: the new handle, or `none` when the call fails. -/
def Connect (w : World) (timer : Option Nat) : Option (Int × World) :=
  if !w.session.m_running then some (-1, w)
  else
    match enqueueMain w (QueueOperation.QueueConnect w.session.m_hNotify 0) with
    | none => none
    | some (_, w1) =>
      match w1.profile with
      | none => none
      | some p =>
        if p.GetNoOp = 0 then some (0, w1)
        else
          let period := toDWORD (toInt32 (toInt32 (p.GetNoOp * 1000) + 500))
          let w2 := w1.emit (Event.CreateTimerQueueTimer period timer.isSome)
          let handle := match timer with
            | some h => h
            | none => w2.session.m_timerHandle
          some (0, w2.withSession
            { w2.session with m_timerHandle := handle, m_timerIsInit := true })

/-- `FTPSession::NoOp()`. -/
def NoOp (w : World) : Option (Int × World) :=
  if !w.session.m_running then some (-1, w)
  else enqueueMain w (QueueOperation.QueueNoOp w.session.m_hNotify)

/-- `FTPSession::QueueTimerHandler()`, the callback of the timer;
`mainSecs` and `transSecs` are what `LastAction()` of the two clients
reports at that moment.  The handler returns nothing. -/
def QueueTimerHandler (w : World) (mainSecs transSecs : Nat) : Option World :=
  -- if (m_timerCount++ == 0) return;
  let count := w.session.m_timerCount
  let w1 := w.withSession { w.session with m_timerCount := count + 1 }
  if count = 0 then some w1
  else
    match w1.session.m_mainWrapper, w1.session.m_transferWrapper with
    | some _, some _ =>
      let mainSecs := asDWORD mainSecs
      let transSecs := asDWORD transSecs
      if mainSecs = 0 ∧ transSecs = 0 then some w1
      else
        let minSecs := if transSecs < mainSecs then transSecs else mainSecs
        match w1.profile with
        | none => none
        | some p =>
          if minSecs > toDWORD p.GetNoOp then (NoOp w1).map Prod.snd
          else some w1
    | _, _ => none

/-- `FTPSession::GetDirectory(dir)`. -/
def GetDirectory (w : World) (dir : CStr) : Option (Int × World) :=
  if !w.session.m_running then some (-1, w)
  else enqueueMain w (QueueOperation.QueueGetDir w.session.m_hNotify dir [])

/-- `sprintf(currentPath, "%s%s/", currentPath, pathEntry)` into
`char currentPath[MAX_PATH]`: the new content of the buffer, `none` when it
does not fit with its NUL and the write runs past the buffer. -/
def GetDirectoryHierarchy.sprintfPath (currentPath pathEntry : CStr) : Option CStr :=
  if MAX_PATH ≤ (currentPath ++ pathEntry ++ ['/']).length then none
  else some (currentPath ++ pathEntry ++ ['/'])

/-- The `while (pathEntry != NULL)` loop of `GetDirectoryHierarchy` over the
remaining tokens, with the loop variables `currentFileObj`, `currentPath`
and `parentDirs`.  `Except.error 1` is the `return 1` inside the loop;
`Except.ok` carries `parentDirs` at the loop exit; `none` is a `sprintf`
past the end of `currentPath`. -/
def GetDirectoryHierarchy.walk :
    List CStr → Option FileObject → CStr → List CStr → Option (Except Int (List CStr))
  | [], _, _, parentDirs => some (Except.ok parentDirs)
  | pathEntry :: rest, none, currentPath, parentDirs =>
    -- if (currentFileObj) is false: straight to the bookkeeping
    let parentDirs1 := if parentDirs.length = 0 then parentDirs ++ [currentPath] else parentDirs
    match GetDirectoryHierarchy.sprintfPath currentPath pathEntry with
    | none => none
    | some currentPath1 =>
      GetDirectoryHierarchy.walk rest none currentPath1 (parentDirs1 ++ [currentPath1])
  | pathEntry :: rest, some obj, currentPath, parentDirs =>
    let childCount := obj.GetChildCount
    match obj.GetChildByName pathEntry with
    | some child =>
      if child.GetData ≠ 0 then
        -- known child with UI data: descend, `continue`
        match GetDirectoryHierarchy.sprintfPath currentPath pathEntry with
        | none => none
        | some currentPath1 =>
          GetDirectoryHierarchy.walk rest (some child) currentPath1 parentDirs
      else
        let parentDirs1 :=
          if parentDirs.length = 0 then parentDirs ++ [currentPath] else parentDirs
        match GetDirectoryHierarchy.sprintfPath currentPath pathEntry with
        | none => none
        | some currentPath1 =>
          GetDirectoryHierarchy.walk rest (some child) currentPath1
            (parentDirs1 ++ [currentPath1])
    | none =>
      if childCount ≠ 0 then some (Except.error 1)
      else
        let parentDirs1 :=
          if parentDirs.length = 0 then parentDirs ++ [currentPath] else parentDirs
        match GetDirectoryHierarchy.sprintfPath currentPath pathEntry with
        | none => none
        | some currentPath1 =>
          GetDirectoryHierarchy.walk rest none currentPath1 (parentDirs1 ++ [currentPath1])

/-- `FTPSession::GetDirectoryHierarchy(inputDir)`.  The copy `dir` of
`inputDir` is on the heap (`SU::strdup`) and has the size of the input;
`currentPath` starts as `"/"`. -/
def GetDirectoryHierarchy (w : World) (inputDir : CStr) : Option (Int × World) :=
  if !w.session.m_running then some (-1, w)
  else
    match GetDirectoryHierarchy.walk (strtokAll inputDir) w.session.m_rootObject ['/'] [] with
    | none => none
    | some (Except.error r) => some (r, w)
    | some (Except.ok parentDirs) =>
      -- if (parentDirs.size()) parentDirs.pop_back();
      let parentDirs1 := if parentDirs.length ≠ 0 then parentDirs.dropLast else parentDirs
      enqueueMain w (QueueOperation.QueueGetDir w.session.m_hNotify inputDir parentDirs1)

/-- `FTPSession::DownloadFile(sourcefile, target, targetIsDir, code)`;
a null string argument is `none`. -/
def DownloadFile (K : Collaborators) (w : World) (sourcefile target : Option CStr)
    (targetIsDir : Bool) (code : Int) : Option (Int × World) :=
  if !w.session.m_running then some (-1, w)
  else
    match sourcefile, target with
    | some src, some tgt =>
      let sourcenamelocal := K.Utf8ToTChar (FileObject.FindExternalFilename src)
      let targetfile := if targetIsDir then K.ConcatLocal tgt sourcenamelocal else tgt
      match w.profile with
      | none => none
      | some p =>
        let tMode := K.GetFileTransferMode p sourcenamelocal
        enqueueTransfer w
          (QueueOperation.QueueDownload w.session.m_hNotify src targetfile tMode code)
    | _, _ => some (-1, w)

/-- `FTPSession::DownloadFileCache(sourcefile)`. -/
def DownloadFileCache (K : Collaborators) (w : World) (sourcefile : Option CStr) :
    Option (Int × World) :=
  if !w.session.m_running then some (-1, w)
  else
    match sourcefile with
    | none => some (-1, w)
    | some src =>
      match w.profile with
      | none => none
      | some p =>
        let (res, target) := K.GetCacheLocal p src
        if res ≠ 0 then some (res, w)
        else DownloadFile K w (some src) (some target) false 0

/-- `FTPSession::DownloadFileHandle(sourcefile, target)`; the handle `0` is NULL. -/
def DownloadFileHandle (K : Collaborators) (w : World) (sourcefile : Option CStr)
    (target : Nat) : Option (Int × World) :=
  if !w.session.m_running then some (-1, w)
  else
    match sourcefile with
    | none => some (-1, w)
    | some src =>
      if target = 0 then some (-1, w)
      else
        let sourcenamelocal := K.Utf8ToTChar (FileObject.FindExternalFilename src)
        match w.profile with
        | none => none
        | some p =>
          let tMode := K.GetFileTransferMode p sourcenamelocal
          enqueueTransfer w
            (QueueOperation.QueueDownloadHandle w.session.m_hNotify src target tMode)

/-- `FTPSession::UploadFile(sourcefile, target, targetIsDir, code)`. -/
def UploadFile (K : Collaborators) (w : World) (sourcefile target : Option CStr)
    (targetIsDir : Bool) (code : Int) : Option (Int × World) :=
  if !w.session.m_running then some (-1, w)
  else
    match sourcefile, target with
    | some src, some tgt =>
      let sourcenamelocal := K.FindLocalFilename src
      let targetfile := if targetIsDir then K.ConcatLocalToExternal tgt sourcenamelocal else tgt
      match w.profile with
      | none => none
      | some p =>
        let tMode := K.GetFileTransferMode p sourcenamelocal
        enqueueTransfer w
          (QueueOperation.QueueUpload w.session.m_hNotify targetfile src tMode code)
    | _, _ => some (-1, w)

/-- `FTPSession::UploadFileCache(sourcefile)`. -/
def UploadFileCache (K : Collaborators) (w : World) (sourcefile : Option CStr) :
    Option (Int × World) :=
  if !w.session.m_running then some (-1, w)
  else
    match sourcefile with
    | none => some (-1, w)
    | some src =>
      match w.profile with
      | none => none
      | some p =>
        let (res, target) := K.GetCacheExternal p src
        if res ≠ 0 then some (res, w)
        else UploadFile K w (some src) (some target) false 0

/-- `FTPSession::MkDir(path)`. -/
def MkDir (w : World) (path : CStr) : Option (Int × World) :=
  if !w.session.m_running then some (-1, w)
  else enqueueMain w (QueueOperation.QueueCreateDir w.session.m_hNotify path)

/-- `FTPSession::RmDir(path)`. -/
def RmDir (w : World) (path : CStr) : Option (Int × World) :=
  if !w.session.m_running then some (-1, w)
  else enqueueMain w (QueueOperation.QueueRemoveDir w.session.m_hNotify path)

/-- `FTPSession::MkFile(path)`. -/
def MkFile (w : World) (path : CStr) : Option (Int × World) :=
  if !w.session.m_running then some (-1, w)
  else enqueueMain w (QueueOperation.QueueCreateFile w.session.m_hNotify path)

/-- `FTPSession::DeleteFile(path)`. -/
def DeleteFile (w : World) (path : CStr) : Option (Int × World) :=
  if !w.session.m_running then some (-1, w)
  else enqueueMain w (QueueOperation.QueueDeleteFile w.session.m_hNotify path)

/-- `FTPSession::Rename(oldpath, newpath)`. -/
def Rename (w : World) (oldpath newpath : CStr) : Option (Int × World) :=
  if !w.session.m_running then some (-1, w)
  else enqueueMain w (QueueOperation.QueueRenameFile w.session.m_hNotify oldpath newpath)

/-- `FTPSession::AbortOperation()`: no test of `m_running`; the main client
pointer is dereferenced at once. -/
def AbortOperation (K : Collaborators) (w : World) : Option (Int × World) :=
  match w.session.m_mainWrapper with
  | none => none
  | some c => some (K.AbortResult c, w.withSession { w.session with m_mainWrapper := some c.Abort })

/-- `FTPSession::AbortTransfer()`: no test of `m_running`. -/
def AbortTransfer (K : Collaborators) (w : World) : Option (Int × World) :=
  match w.session.m_transferWrapper with
  | none => none
  | some c =>
    some (K.AbortResult c, w.withSession { w.session with m_transferWrapper := some c.Abort })

/-- `FTPSession::CancelOperation(cancelOp)`: no test of `m_running`. -/
def CancelOperation (K : Collaborators) (w : World) (cancelOp : QueueOperation) :
    Option (Int × World) :=
  match w.session.m_transferQueue with
  | none => none
  | some q =>
    let (res, q1) := K.CancelQueueOp q cancelOp
    some (res, w.withSession { w.session with m_transferQueue := some q1 })

/-- The `while (curDir != NULL)` loop of `GetRootObject`, with the loop
variables `dir` (the buffer, truncated at each round), `prevDir` and the
next free address.  It ends either because `strrchr` finds no slash (result
`none`: nothing is grafted) or at the slash that starts the buffer (result
`some prevDir`: the branch that adds `prevDir` to the root and breaks).
The first argument bounds the number of rounds; each round shortens `dir`,
so `strlen(dir) + 1` rounds always suffice (lemma `loop_isSome`). -/
def GetRootObject.loop : Nat → CStr → FileObject → Nat → Option (Option FileObject × Nat)
  | 0, _, _, _ => none
  | fuel + 1, dir, prevDir, next =>
    match strrchr dir '/' with
    | none => some (none, next)
    | some 0 => some (some prevDir, next)
    | some (i + 1) =>
      -- *curDir = 0; child = new FileObject(dir, true, false);
      let dir1 := dir.take (i + 1)
      let child := ((FileObject.new next dir1 true false).AddChild prevDir).SetRefresh false
      GetRootObject.loop fuel dir1 child (next + 1)

/-- The first part of `GetRootObject()`, up to the test of `res`: the
directory is the initial directory of the profile if it is absolute and
`Cwd` into it does not return -1, otherwise what `Pwd` reports.  `cwd` is
the result of `m_mainWrapper->Cwd(dir)` if it is called, and `pwd` the
result of `m_mainWrapper->Pwd(dir, MAX_PATH)` together with the directory
it writes if it is called.  The result is the pair of `res` and `dir`.
`strcpy(dir, GetInitialDir())` writes past `char dir[MAX_PATH]` when the
initial directory has `MAX_PATH` bytes or more, and so does a `Pwd` that
writes a directory of `MAX_PATH` bytes or more: the result is `none`. -/
def GetRootObject.resolve (w : World) (cwd : Int) (pwd : Int × CStr) : Option (Int × CStr) :=
  match w.profile with
  | none => none
  | some p =>
    let dir0 := p.initialDir
    -- char dir[MAX_PATH]; strcpy(dir, m_currentProfile->GetInitialDir());
    if MAX_PATH ≤ dir0.length then none
    else
      -- strlen(dir) < 1 || dir[0] != '/'
      let invalid := decide (dir0.length < 1) || decide (dir0.head? ≠ some '/')
      match (if invalid then some (-1) else w.session.m_mainWrapper.map (fun _ => cwd)) with
      | none => none
      | some res0 =>
        if res0 = -1 then
          -- res = m_mainWrapper->Pwd(&dir[0], MAX_PATH);
          match w.session.m_mainWrapper with
          | none => none
          | some _ => if MAX_PATH ≤ pwd.2.length then none else some pwd
        else some (res0, dir0)

/-- `FTPSession::GetRootObject()`, with the outcomes `cwd` and `pwd` of the
two calls to the transport client (see `GetRootObject.resolve`).  The
result is the pointer `m_rootObject`. -/
def GetRootObject (w : World) (cwd : Int) (pwd : Int × CStr) :
    Option (Option FileObject × World) :=
  match GetRootObject.resolve w cwd pwd with
  | none => none
  | some (res, dir) =>
    if res = -1 ∨ dir.length ≤ 1 then some (w.session.m_rootObject, w)
    else
      let child := FileObject.new w.nextAddr dir true false
      match GetRootObject.loop (dir.length + 1) dir child (w.nextAddr + 1) with
      | none => none
      | some (none, next) => some (w.session.m_rootObject, { w with nextAddr := next })
      | some (some prevDir, next) =>
        -- child = m_rootObject; child->AddChild(prevDir); child->SetRefresh(false);
        match w.session.m_rootObject with
        | none => none
        | some root =>
          let root1 := (root.AddChild prevDir).SetRefresh false
          some (some root1,
            { w with
              nextAddr := next
              session := { w.session with m_rootObject := some root1 } })

/-- The `for (i = 0; i < count; i++)` loop of `FindPathObject` over the
children from position `i` on: the value of `i` when the loop is left,
either by `break` at the first child named `curname` or because `i`
reached `count`. -/
def FindPathObject.forLoop (curname : CStr) : List FileObject → Nat → Nat
  | [], i => i
  | child :: more, i =>
    if child.GetName = curname then i else FindPathObject.forLoop curname more (i + 1)

/-- The `while (curname)` loop of `FindPathObject` over the remaining
tokens.  The inner result is the pointer returned (`none` is NULL). -/
def FindPathObject.loop : List CStr → FileObject → Option (Option FileObject)
  | [], current => some (some current)
  | curname :: rest, current =>
    if current.GetChildCount = 0 then some none
    else
      let count := current.GetChildCount
      let i := FindPathObject.forLoop curname current.children 0
      if i = count then some none
      else
        match current.GetChild i with
        | none => none
        | some child => FindPathObject.loop rest child

/-- `FTPSession::FindPathObject(filepath)`; a null `filepath` is `none`.
`strcpy(tempstr, filepath)` writes past `char tempstr[MAX_PATH]` when the
path has `MAX_PATH` bytes or more: the result is `none`. -/
def FindPathObject (w : World) (filepath : Option CStr) :
    Option (Option FileObject × World) :=
  match filepath with
  | none => some (none, w)
  | some path =>
    -- char tempstr[MAX_PATH]; strcpy(tempstr, filepath);
    if MAX_PATH ≤ path.length then none
    else
      match strtokAll path with
      | [] => some (w.session.m_rootObject, w)
      | curname :: rest =>
        match w.session.m_rootObject with
        | none => none
        | some root => (FindPathObject.loop (curname :: rest) root).map (fun r => (r, w))

end FTPSession

/-! ## Running sessions and reachable states -/

/-- The state of a running session: the flag is set, the two transport
clients, the two queues and the root object exist, and `m_currentProfile`
points to a profile. -/
def World.RunningOk (w : World) : Prop :=
  w.session.m_running = true ∧
  w.session.m_mainWrapper.isSome = true ∧ w.session.m_transferWrapper.isSome = true ∧
  w.session.m_mainQueue.isSome = true ∧ w.session.m_transferQueue.isSome = true ∧
  w.session.m_rootObject.isSome = true ∧ w.profile.isSome = true

instance (w : World) : Decidable w.RunningOk := by
  unfold World.RunningOk; infer_instance

/-- A profile used in the examples: keep-alive every 30 seconds, client creation succeeds. -/
def exampleProfile : FTPProfile :=
  { refCount := 1, hostname := ['h'], username := ['u'], initialDir := [], noOp := 30,
    wrapper := some { certificates := none, aborts := 0 } }

/-- A profile whose `CreateWrapper()` fails. -/
def brokenProfile : FTPProfile :=
  { refCount := 1, hostname := ['h'], username := ['u'], initialDir := [], noOp := 30,
    wrapper := none }

/-- A constructed and initialised session that was not started, with two
profiles in the store. -/
def idleWorld : World :=
  { session :=
      { FTPSession.new 0 0 false with
        m_ftpWindow := some { hwnd := 7 }, m_ftpSettings := some { cacheEnvironment := none },
        m_hNotify := 7, m_isInit := true }
    profiles := [exampleProfile, brokenProfile]
    nextAddr := 100
    events := [] }

/-- The world after `StartSession` on `idleWorld` with the first profile. -/
def runningWorld : World :=
  { session :=
      { idleWorld.session with
        m_currentProfile := some 0
        m_ftpSettings := some { cacheEnvironment := some (['h'], ['u']) }
        m_mainWrapper := some { certificates := none, aborts := 0 }
        m_transferWrapper := some { certificates := none, aborts := 0 }
        m_mainQueue := some { client := ClientId.main, ops := [], active := true }
        m_transferQueue := some { client := ClientId.transfer, ops := [], active := true }
        m_rootObject := some (FileObject.mk 100 ['/'] [] true false none 0 (some 100) [])
        m_running := true }
    profiles := [{ exampleProfile with refCount := 2 }, brokenProfile]
    nextAddr := 101
    events := [] }

/-- The running world with one download pending on the transfer queue. -/
def busyWorld : World :=
  { runningWorld with
    session := { runningWorld.session with
      m_transferQueue := some
        { client := ClientId.transfer
          ops := [QueueOperation.QueueDownload 7 ['/', 'f'] ['f'] 0 0]
          active := true } } }

/-- Collaborators used in the examples. -/
def exampleCollaborators : Collaborators :=
  { AbortResult := fun _ => 0
    CancelQueueOp := fun q _ => (0, q)
    GetCacheLocal := fun _ s => (0, s)
    GetCacheExternal := fun _ s => (0, s)
    GetFileTransferMode := fun _ _ => 0
    Utf8ToTChar := fun s => s
    FindLocalFilename := fun s => s
    ConcatLocal := fun a b => a ++ b
    ConcatLocalToExternal := fun a b => a ++ b }

/-- One step of a session: a call of a public method of `FTPSession` that
returns (with any arguments and any outcome), a firing of the keep-alive
timer, or a queue worker taking the operation at the head of its queue. -/
inductive Step (K : Collaborators) : World → World → Prop where
  | startSession (w : World) (sessionProfile : Nat) (r : Int) (w1 : World) :
      FTPSession.StartSession w sessionProfile = some (r, w1) → Step K w w1
  | connect (w : World) (timer : Option Nat) (r : Int) (w1 : World) :
      FTPSession.Connect w timer = some (r, w1) → Step K w w1
  | terminateSession (w : World) (answer : Int) (r : Int) (w1 : World) :
      FTPSession.TerminateSession w answer = some (r, w1) → Step K w w1
  | getDirectory (w : World) (dir : CStr) (r : Int) (w1 : World) :
      FTPSession.GetDirectory w dir = some (r, w1) → Step K w w1
  | getDirectoryHierarchy (w : World) (dir : CStr) (r : Int) (w1 : World) :
      FTPSession.GetDirectoryHierarchy w dir = some (r, w1) → Step K w w1
  | downloadFileCache (w : World) (src : Option CStr) (r : Int) (w1 : World) :
      FTPSession.DownloadFileCache K w src = some (r, w1) → Step K w w1
  | downloadFile (w : World) (src tgt : Option CStr) (d : Bool) (code : Int) (r : Int)
      (w1 : World) :
      FTPSession.DownloadFile K w src tgt d code = some (r, w1) → Step K w w1
  | downloadFileHandle (w : World) (src : Option CStr) (h : Nat) (r : Int) (w1 : World) :
      FTPSession.DownloadFileHandle K w src h = some (r, w1) → Step K w w1
  | uploadFileCache (w : World) (src : Option CStr) (r : Int) (w1 : World) :
      FTPSession.UploadFileCache K w src = some (r, w1) → Step K w w1
  | uploadFile (w : World) (src tgt : Option CStr) (d : Bool) (code : Int) (r : Int)
      (w1 : World) :
      FTPSession.UploadFile K w src tgt d code = some (r, w1) → Step K w w1
  | noOp (w : World) (r : Int) (w1 : World) :
      FTPSession.NoOp w = some (r, w1) → Step K w w1
  | mkDir (w : World) (path : CStr) (r : Int) (w1 : World) :
      FTPSession.MkDir w path = some (r, w1) → Step K w w1
  | rmDir (w : World) (path : CStr) (r : Int) (w1 : World) :
      FTPSession.RmDir w path = some (r, w1) → Step K w w1
  | mkFile (w : World) (path : CStr) (r : Int) (w1 : World) :
      FTPSession.MkFile w path = some (r, w1) → Step K w w1
  | deleteFile (w : World) (path : CStr) (r : Int) (w1 : World) :
      FTPSession.DeleteFile w path = some (r, w1) → Step K w w1
  | rename (w : World) (oldpath newpath : CStr) (r : Int) (w1 : World) :
      FTPSession.Rename w oldpath newpath = some (r, w1) → Step K w w1
  | abortOperation (w : World) (r : Int) (w1 : World) :
      FTPSession.AbortOperation K w = some (r, w1) → Step K w w1
  | abortTransfer (w : World) (r : Int) (w1 : World) :
      FTPSession.AbortTransfer K w = some (r, w1) → Step K w w1
  | cancelOperation (w : World) (op : QueueOperation) (r : Int) (w1 : World) :
      FTPSession.CancelOperation K w op = some (r, w1) → Step K w w1
  | getRootObject (w : World) (cwd : Int) (pwd : Int × CStr) (r : Option FileObject)
      (w1 : World) :
      FTPSession.GetRootObject w cwd pwd = some (r, w1) → Step K w w1
  | findPathObject (w : World) (path : Option CStr) (r : Option FileObject) (w1 : World) :
      FTPSession.FindPathObject w path = some (r, w1) → Step K w w1
  | setCertificates (w : World) (v : Option Nat) (r : Int) (w1 : World) :
      FTPSession.SetCertificates w v = some (r, w1) → Step K w w1
  | queueTimerHandler (w : World) (mainSecs transSecs : Nat) (w1 : World) :
      FTPSession.QueueTimerHandler w mainSecs transSecs = some w1 → Step K w w1
  | mainWorker (w : World) (q : FTPQueue) :
      w.session.m_mainQueue = some q →
      Step K w (w.withSession { w.session with m_mainQueue := some { q with ops := q.ops.tail } })
  | transferWorker (w : World) (q : FTPQueue) :
      w.session.m_transferQueue = some q →
      Step K w
        (w.withSession { w.session with m_transferQueue := some { q with ops := q.ops.tail } })

/-- The states a session can be in: it is constructed (with whatever the
uninitialised timer members hold), initialised by `Init`, and then takes
any number of steps. -/
inductive Reachable (K : Collaborators) : World → Prop where
  | init (h c : Nat) (b : Bool) (profiles : List FTPProfile) (nextAddr : Nat)
      (events : List Event) (ftpWindow : Option FTPWindow) (ftpSettings : Option FTPSettings)
      (w0 : World) :
      FTPSession.Init
        { session := FTPSession.new h c b, profiles := profiles, nextAddr := nextAddr,
          events := events } ftpWindow ftpSettings = some (0, w0) →
      Reachable K w0
  | step (w w1 : World) : Reachable K w → Step K w w1 → Reachable K w1

/-- Two worlds agree on what the session invariant looks at: the running
flag, and which of the pointers are null. -/
def World.SameShape (w w1 : World) : Prop :=
  w1.session.m_running = w.session.m_running ∧
  w1.session.m_mainWrapper.isSome = w.session.m_mainWrapper.isSome ∧
  w1.session.m_transferWrapper.isSome = w.session.m_transferWrapper.isSome ∧
  w1.session.m_mainQueue.isSome = w.session.m_mainQueue.isSome ∧
  w1.session.m_transferQueue.isSome = w.session.m_transferQueue.isSome ∧
  w1.session.m_rootObject.isSome = w.session.m_rootObject.isSome ∧
  w1.profile.isSome = w.profile.isSome

/-- The invariant carried along the reachable states: a running session is
complete (`RunningOk`), a session that is not running has neither clients
nor queues. -/
def World.StrongInvariant (w : World) : Prop :=
  (w.session.m_running = true → w.RunningOk) ∧
  (w.session.m_running = false →
    w.session.m_mainWrapper = none ∧ w.session.m_transferWrapper = none ∧
    w.session.m_mainQueue = none ∧ w.session.m_transferQueue = none)

/-! ## Descriptions of the tree walk in the words of the specification -/

/-- A directory node of the examples at address `a` with UI data `d`, marked
as needing no refresh. -/
def exampleNode (a : Nat) (path name : CStr) (d : Nat) (parent : Nat)
    (children : List FileObject) : FileObject :=
  FileObject.mk a path name true false (some false) d (some parent) children

/-- The cached tree `/` → `a` → `b`, where `a` and `b` carry UI data and `b`
has no children. -/
def exampleTree : FileObject :=
  exampleNode 100 ['/'] [] 1 100
    [exampleNode 101 ['/', 'a'] ['a'] 2 100
      [exampleNode 102 ['/', 'a', '/', 'b'] ['b'] 3 101 []]]

/-- The running session of the examples with `exampleTree` as its tree. -/
def treeWorld : World :=
  { runningWorld with
    session := { runningWorld.session with m_rootObject := some exampleTree }
    nextAddr := 103 }

/-- The root of `runningWorld` after `GetRootObject()` resolved the working
directory `/a`: the root, marked as needing no refresh, with the one child
`/a`, on which `SetRefresh` was not called. -/
def rootOnce : FileObject :=
  FileObject.mk 100 ['/'] [] true false (some false) 0 (some 100)
    [FileObject.mk 101 ['/', 'a'] ['a'] true false none 0 (some 100) []]

mutual
/-- Names are unique among siblings, at every node of the tree. -/
def FileObject.uniqueNames : FileObject → Bool
  | .mk _ _ _ _ _ _ _ _ c =>
    decide ((c.map FileObject.GetName).Nodup) && FileObject.uniqueNamesList c
/-- Names are unique among siblings, at every node of every tree of the list. -/
def FileObject.uniqueNamesList : List FileObject → Bool
  | [] => true
  | x :: xs => x.uniqueNames && FileObject.uniqueNamesList xs
end

/-- The number of children of `o` whose name is `s`. -/
def FileObject.childrenNamed (o : FileObject) (s : CStr) : Nat :=
  (o.children.filter (fun c => decide (c.GetName = s))).length

/-- A session trace: on `runningWorld` (keep-alive interval 30 s),
`Connect()`, the first firing of the timer, then a second `Connect()`.
Both clients report 100 idle seconds at each firing. -/
def traceSecondConnect : Option World :=
  (FTPSession.Connect runningWorld (some 1)).bind fun r1 =>
  (FTPSession.QueueTimerHandler r1.2 100 100).bind fun w2 =>
  (FTPSession.Connect w2 (some 2)).map fun r3 => r3.2

/-- The trace `traceSecondConnect` followed by the first firing of the
timer after the second `Connect()`. -/
def traceFiringAfterSecondConnect : Option World :=
  traceSecondConnect.bind fun w3 => FTPSession.QueueTimerHandler w3 100 100

/-- The operations on the control queue of a world. -/
def World.mainOps (w : World) : Option (List QueueOperation) :=
  w.session.m_mainQueue.map FTPQueue.ops

/-- The operations on the transfer queue of a world. -/
def World.transferOps (w : World) : Option (List QueueOperation) :=
  w.session.m_transferQueue.map FTPQueue.ops

/-- The running session of the examples with the keep-alive interval of its
profile set to -1. -/
def negativeIntervalWorld : World :=
  { runningWorld with
    profiles := [{ exampleProfile with refCount := 2, noOp := -1 }, brokenProfile] }

/-- The period handed to `CreateTimerQueueTimer` for the interval `n`: the
`int` expression `(n * 1000) + 500` converted to `DWORD`. -/
def timerPeriod (n : Int) : Nat := toDWORD (toInt32 (toInt32 (n * 1000) + 500))

/-- A cached tree `/` → `a` → `b` in which `a` has no UI data while its
child `b` has. -/
def gapTree : FileObject :=
  exampleNode 100 ['/'] [] 1 100
    [exampleNode 101 ['/', 'a'] ['a'] 0 100
      [exampleNode 102 ['/', 'a', '/', 'b'] ['b'] 3 101 []]]

/-- The running session of the examples with `gapTree` as its tree. -/
def gapWorld : World :=
  { runningWorld with
    session := { runningWorld.session with m_rootObject := some gapTree }
    nextAddr := 103 }

/-- The directory path that `GetDirectoryHierarchy` builds in `currentPath`:
starting from `path`, each segment is appended with a trailing `/`. -/
def extendPath (path : CStr) : List CStr → CStr
  | [] => path
  | t :: rest => extendPath (path ++ t ++ ['/']) rest

/-- The directory paths of the successive extensions of `path` by the
segments, top-down: `path/t1/`, `path/t1/t2/`, ... -/
def extensions (path : CStr) : List CStr → List CStr
  | [] => []
  | t :: rest => (path ++ t ++ ['/']) :: extensions (path ++ t ++ ['/']) rest

/-- The node reached from `o` by moving, for each segment in order, to the
child of that name, every such child carrying UI data (the nodes already
shown in the tree view); `none` otherwise. -/
def FileObject.descendShown : FileObject → List CStr → Option FileObject
  | o, [] => some o
  | o, seg :: rest =>
    match o.GetChildByName seg with
    | none => none
    | some c => if c.GetData ≠ 0 then FileObject.descendShown c rest else none

open FTPSession

theorem Clear_spec (w : World) :
    ∃ es, (Clear w).2 =
      { w with
        session := { w.session with m_mainQueue := none, m_transferQueue := none,
                                    m_mainWrapper := none, m_transferWrapper := none }
        events := w.events ++ es } ∧ Event.MessageBox ∉ es := by
  unfold Clear Clear.disconnect
  cases h1 : w.session.m_transferWrapper <;> cases h2 : w.session.m_mainWrapper
  · exact ⟨[], by simp [World.withSession, World.emit, h1, h2], by simp⟩
  · exact ⟨[Event.Disconnect ClientId.main w.session.m_hNotify],
      by simp [World.withSession, World.emit, h1, h2], by simp⟩
  · exact ⟨[Event.Disconnect ClientId.transfer w.session.m_hNotify],
      by simp [World.withSession, World.emit, h1, h2], by simp⟩
  · exact ⟨[Event.Disconnect ClientId.transfer w.session.m_hNotify,
            Event.Disconnect ClientId.main w.session.m_hNotify],
      by simp [World.withSession, World.emit, h1, h2], by simp⟩

theorem teardown_spec (w0 : World)
    (hp : w0.session.m_currentProfile = none ∨ w0.profile.isSome = true) :
    ∃ w1 es, TerminateSession.teardown w0 = some (0, w1) ∧
      w1.session.m_running = false ∧
      w1.session.m_mainWrapper = none ∧ w1.session.m_transferWrapper = none ∧
      w1.session.m_mainQueue = none ∧ w1.session.m_transferQueue = none ∧
      w1.session.m_rootObject = none ∧ w1.session.m_currentProfile = none ∧
      w1.session.m_timerIsInit = false ∧
      (w0.session.m_timerIsInit = true → w1.session.m_timerCount = 0) ∧
      (w0.session.m_timerIsInit = false → w1.session.m_timerCount = w0.session.m_timerCount) ∧
      w1.session.m_isInit = w0.session.m_isInit ∧
      w1.session.m_ftpSettings = w0.session.m_ftpSettings ∧
      w1.profiles.length = w0.profiles.length ∧
      w1.events = w0.events ++ es ∧ Event.MessageBox ∉ es := by
  obtain ⟨⟨cp, st, mw, tw, mq, tq, run, hn, win, isInit, root, cert, th, tc, ti⟩,
    profiles, next, events⟩ := w0
  cases cp with
  | none =>
    cases mw <;> cases tw <;> cases ti <;>
      simp [TerminateSession.teardown, Clear, Clear.disconnect, World.withSession, World.emit]
  | some i =>
    simp [World.profile] at hp
    obtain ⟨p, hpi⟩ := Option.isSome_iff_exists.mp (by simpa using hp : (profiles[i]?).isSome = true)
    cases mw <;> cases tw <;> cases ti <;>
      simp [TerminateSession.teardown, Clear, Clear.disconnect, World.withSession, World.emit, hpi]


/-- C1: `TerminateSession` on a running session.  With an empty transfer
queue it terminates without showing the confirmation dialog: it returns 0,
`m_running` is false afterwards and no `MessageBox` event is emitted.  With
one or more operations on the transfer queue the dialog is shown; when the
answer is not `IDYES` the call returns -1 and the session, the profiles and
the FileObject tree are exactly as before (the world differs only by the
recorded dialog). -/
theorem TerminateSession_confirmation (w : World) (tq : FTPQueue) (answer : Int)
    (hrun : w.RunningOk) (htq : w.session.m_transferQueue = some tq) :
    (tq.GetQueueSize = 0 →
      ∃ w1 es, TerminateSession w answer = some (0, w1) ∧ w1.session.m_running = false ∧
        w1.events = w.events ++ es ∧ Event.MessageBox ∉ es) ∧
    (1 ≤ tq.GetQueueSize →
      ∃ r w1 es, TerminateSession w answer = some (r, w1) ∧
        w1.events = w.events ++ Event.MessageBox :: es) ∧
    (1 ≤ tq.GetQueueSize → answer ≠ IDYES →
      TerminateSession w answer =
        some (-1, { w with events := w.events ++ [Event.MessageBox] })) := by
  obtain ⟨h1, -, -, -, -, -, h7⟩ := hrun
  refine ⟨?_, ?_, ?_⟩
  · intro hz
    obtain ⟨w1, es, ht, hr, -, -, -, -, -, -, -, -, -, -, -, -, he, hn⟩ :=
      teardown_spec w (Or.inr h7)
    exact ⟨w1, es, by simp [TerminateSession, h1, htq, hz, ht], hr, he, hn⟩
  · intro hpos
    have hpos' : 0 < tq.GetQueueSize := hpos
    by_cases hans : answer = IDYES
    · obtain ⟨w1, es, ht, -, -, -, -, -, -, -, -, -, -, -, -, -, he, -⟩ :=
        teardown_spec (w.emit Event.MessageBox) (Or.inr (by simpa [World.emit, World.profile] using h7))
      refine ⟨0, w1, es, by simp [TerminateSession, h1, htq, hpos', hans, ht], ?_⟩
      simpa [World.emit] using he
    · exact ⟨-1, w.emit Event.MessageBox, [],
        by simp [TerminateSession, h1, htq, hpos', hans], by simp [World.emit]⟩
  · intro hpos hans
    have hpos' : 0 < tq.GetQueueSize := hpos
    simp [TerminateSession, h1, htq, hpos', hans, World.emit]

theorem TerminateSession_confirmation_witness :
    busyWorld.RunningOk ∧
    TerminateSession busyWorld IDNO =
      some (-1, { busyWorld with events := busyWorld.events ++ [Event.MessageBox] }) :=
  ⟨by decide,
   (TerminateSession_confirmation busyWorld
      { client := ClientId.transfer, ops := [QueueOperation.QueueDownload 7 ['/', 'f'] ['f'] 0 0],
        active := true } IDNO (by decide) (by decide)).2.2 (by decide) (by decide)⟩

theorem set_of_getElem? {α : Type} (l : List α) (i : Nat) (a : α) (h : l[i]? = some a) :
    l.set i a = l := by
  apply List.ext_getElem?
  intro j
  by_cases hj : i = j
  · subst hj; rw [List.getElem?_set_self', h]; simp
  · rw [List.getElem?_set_ne hj]

/-- C2: `StartSession` fails atomically.  (1) On a running session it
returns -1 and the world is unchanged, for every profile argument.  (2) On
a session that is not running (and was initialised with a settings object),
when `CreateWrapper()` of the profile fails it returns -1, the profile store
is as before (the reference count taken by `AddRef` is given back),
`m_currentProfile` is null, `m_running` is false, and no queue, transfer
client or root object is created. -/
theorem StartSession_fails_atomically (w : World) (sessionProfile : Nat) :
    (w.session.m_running = true → StartSession w sessionProfile = some (-1, w)) ∧
    (∀ (st : FTPSettings) (p : FTPProfile),
      w.session.m_running = false → w.session.m_ftpSettings = some st →
      w.profiles[sessionProfile]? = some p → p.CreateWrapper = none →
      ∃ w1, StartSession w sessionProfile = some (-1, w1) ∧
        w1.profiles = w.profiles ∧
        w1.session.m_currentProfile = none ∧ w1.session.m_running = false ∧
        w1.session.m_mainWrapper = none ∧
        w1.session.m_transferWrapper = w.session.m_transferWrapper ∧
        w1.session.m_mainQueue = w.session.m_mainQueue ∧
        w1.session.m_transferQueue = w.session.m_transferQueue ∧
        w1.session.m_rootObject = w.session.m_rootObject ∧
        w1.nextAddr = w.nextAddr ∧ w1.events = w.events) := by
  refine ⟨fun h => by simp [StartSession, h], ?_⟩
  intro st p hrun hst hp hw
  have hw' : p.AddRef.CreateWrapper = none := hw
  have hrel : p.AddRef.Release = p := by
    cases p; simp [FTPProfile.AddRef, FTPProfile.Release]
  refine ⟨_, by simp only [StartSession, hrun, hst, hp, hw', hrel]; rfl, ?_⟩
  simp only [hrun, and_true, true_and]
  exact set_of_getElem? _ _ _ hp

theorem StartSession_fails_atomically_witness :
    StartSession runningWorld 1 = some (-1, runningWorld) ∧
    ∃ w1, StartSession idleWorld 1 = some (-1, w1) ∧
      w1.profiles = idleWorld.profiles ∧
      w1.session.m_currentProfile = none ∧ w1.session.m_running = false ∧
      w1.session.m_mainWrapper = none ∧
      w1.session.m_transferWrapper = idleWorld.session.m_transferWrapper ∧
      w1.session.m_mainQueue = idleWorld.session.m_mainQueue ∧
      w1.session.m_transferQueue = idleWorld.session.m_transferQueue ∧
      w1.session.m_rootObject = idleWorld.session.m_rootObject ∧
      w1.nextAddr = idleWorld.nextAddr ∧ w1.events = idleWorld.events :=
  ⟨(StartSession_fails_atomically runningWorld 1).1 (by decide),
   (StartSession_fails_atomically idleWorld 1).2 { cacheEnvironment := none } brokenProfile
      (by decide) (by decide) (by decide) (by decide)⟩

theorem sameShape_refl (w : World) : w.SameShape w := by
  simp [World.SameShape]

theorem strongInvariant_of_sameShape {w w1 : World} (h : w.StrongInvariant)
    (hs : w.SameShape w1) : w1.StrongInvariant := by
  obtain ⟨s1, s2, s3, s4, s5, s6, s7⟩ := hs
  obtain ⟨ha, hb⟩ := h
  constructor
  · intro hr
    rw [s1] at hr
    obtain ⟨-, a2, a3, a4, a5, a6, a7⟩ := ha hr
    exact ⟨by rw [s1]; exact hr, by rw [s2]; exact a2, by rw [s3]; exact a3,
      by rw [s4]; exact a4, by rw [s5]; exact a5, by rw [s6]; exact a6, by rw [s7]; exact a7⟩
  · intro hr
    rw [s1] at hr
    obtain ⟨b1, b2, b3, b4⟩ := hb hr
    rw [b1] at s2; rw [b2] at s3; rw [b3] at s4; rw [b4] at s5
    simp at s2 s3 s4 s5
    exact ⟨s2, s3, s4, s5⟩

theorem enqueueMain_sameShape {w w1 : World} {op : QueueOperation} {r : Int}
    (h : enqueueMain w op = some (r, w1)) : w.SameShape w1 := by
  unfold enqueueMain at h
  split at h
  · cases h
  · rename_i q hq
    simp at h
    obtain ⟨-, rfl⟩ := h
    simp [World.SameShape, World.withSession, World.profile, hq]

theorem enqueueTransfer_sameShape {w w1 : World} {op : QueueOperation} {r : Int}
    (h : enqueueTransfer w op = some (r, w1)) : w.SameShape w1 := by
  unfold enqueueTransfer at h
  split at h
  · cases h
  · rename_i q hq
    simp at h
    obtain ⟨-, rfl⟩ := h
    simp [World.SameShape, World.withSession, World.profile, hq]

theorem Connect_sameShape {w w1 : World} {timer : Option Nat} {r : Int}
    (h : Connect w timer = some (r, w1)) : w.SameShape w1 := by
  unfold Connect at h
  split at h
  · simp at h; obtain ⟨-, rfl⟩ := h; exact sameShape_refl _
  · split at h
    · cases h
    · rename_i r0 w0 he
      have hs := enqueueMain_sameShape he
      split at h
      · cases h
      · split at h
        · simp at h; obtain ⟨-, rfl⟩ := h; exact hs
        · simp at h; obtain ⟨-, rfl⟩ := h
          simpa [World.SameShape, World.withSession, World.emit, World.profile] using hs

theorem GetDirectory_sameShape {w w1 : World} (dir : CStr) {r : Int}
    (h : GetDirectory w dir = some (r, w1)) : w.SameShape w1 := by
  unfold GetDirectory at h
  split at h
  · simp at h; obtain ⟨-, rfl⟩ := h; exact sameShape_refl _
  · exact enqueueMain_sameShape h

theorem NoOp_sameShape {w w1 : World}  {r : Int}
    (h : NoOp w  = some (r, w1)) : w.SameShape w1 := by
  unfold NoOp at h
  split at h
  · simp at h; obtain ⟨-, rfl⟩ := h; exact sameShape_refl _
  · exact enqueueMain_sameShape h

theorem MkDir_sameShape {w w1 : World} (path : CStr) {r : Int}
    (h : MkDir w path = some (r, w1)) : w.SameShape w1 := by
  unfold MkDir at h
  split at h
  · simp at h; obtain ⟨-, rfl⟩ := h; exact sameShape_refl _
  · exact enqueueMain_sameShape h

theorem RmDir_sameShape {w w1 : World} (path : CStr) {r : Int}
    (h : RmDir w path = some (r, w1)) : w.SameShape w1 := by
  unfold RmDir at h
  split at h
  · simp at h; obtain ⟨-, rfl⟩ := h; exact sameShape_refl _
  · exact enqueueMain_sameShape h

theorem MkFile_sameShape {w w1 : World} (path : CStr) {r : Int}
    (h : MkFile w path = some (r, w1)) : w.SameShape w1 := by
  unfold MkFile at h
  split at h
  · simp at h; obtain ⟨-, rfl⟩ := h; exact sameShape_refl _
  · exact enqueueMain_sameShape h

theorem DeleteFile_sameShape {w w1 : World} (path : CStr) {r : Int}
    (h : DeleteFile w path = some (r, w1)) : w.SameShape w1 := by
  unfold DeleteFile at h
  split at h
  · simp at h; obtain ⟨-, rfl⟩ := h; exact sameShape_refl _
  · exact enqueueMain_sameShape h

theorem Rename_sameShape {w w1 : World} (a b : CStr) {r : Int}
    (h : Rename w a b = some (r, w1)) : w.SameShape w1 := by
  unfold Rename at h
  split at h
  · simp at h; obtain ⟨-, rfl⟩ := h; exact sameShape_refl _
  · exact enqueueMain_sameShape h

theorem GetDirectoryHierarchy_sameShape {w w1 : World} (dir : CStr) {r : Int}
    (h : GetDirectoryHierarchy w dir = some (r, w1)) : w.SameShape w1 := by
  unfold GetDirectoryHierarchy at h
  split at h
  · simp at h; obtain ⟨-, rfl⟩ := h; exact sameShape_refl _
  · split at h
    · cases h
    · simp at h; obtain ⟨-, rfl⟩ := h; exact sameShape_refl _
    · exact enqueueMain_sameShape h

theorem DownloadFile_sameShape (K : Collaborators) {w w1 : World} (src tgt : Option CStr)
    (d : Bool) (code : Int) {r : Int}
    (h : DownloadFile K w src tgt d code = some (r, w1)) : w.SameShape w1 := by
  unfold DownloadFile at h
  split at h
  · simp at h; obtain ⟨-, rfl⟩ := h; exact sameShape_refl _
  · split at h
    · simp only [] at h
      cases hp : w.profile with
      | none => simp [hp] at h
      | some p => simp only [hp] at h; exact enqueueTransfer_sameShape h
    · simp at h; obtain ⟨-, rfl⟩ := h; exact sameShape_refl _

theorem UploadFile_sameShape (K : Collaborators) {w w1 : World} (src tgt : Option CStr)
    (d : Bool) (code : Int) {r : Int}
    (h : UploadFile K w src tgt d code = some (r, w1)) : w.SameShape w1 := by
  unfold UploadFile at h
  split at h
  · simp at h; obtain ⟨-, rfl⟩ := h; exact sameShape_refl _
  · split at h
    · simp only [] at h
      cases hp : w.profile with
      | none => simp [hp] at h
      | some p => simp only [hp] at h; exact enqueueTransfer_sameShape h
    · simp at h; obtain ⟨-, rfl⟩ := h; exact sameShape_refl _

theorem DownloadFileCache_sameShape (K : Collaborators) {w w1 : World} (src : Option CStr)
    {r : Int} (h : DownloadFileCache K w src = some (r, w1)) : w.SameShape w1 := by
  unfold DownloadFileCache at h
  split at h
  · simp at h; obtain ⟨-, rfl⟩ := h; exact sameShape_refl _
  · split at h
    · simp at h; obtain ⟨-, rfl⟩ := h; exact sameShape_refl _
    · split at h
      · cases h
      · split at h
        split at h
        · simp at h; obtain ⟨-, rfl⟩ := h; exact sameShape_refl _
        · exact DownloadFile_sameShape K _ _ _ _ h

theorem UploadFileCache_sameShape (K : Collaborators) {w w1 : World} (src : Option CStr)
    {r : Int} (h : UploadFileCache K w src = some (r, w1)) : w.SameShape w1 := by
  unfold UploadFileCache at h
  split at h
  · simp at h; obtain ⟨-, rfl⟩ := h; exact sameShape_refl _
  · split at h
    · simp at h; obtain ⟨-, rfl⟩ := h; exact sameShape_refl _
    · split at h
      · cases h
      · split at h
        split at h
        · simp at h; obtain ⟨-, rfl⟩ := h; exact sameShape_refl _
        · exact UploadFile_sameShape K _ _ _ _ h

theorem DownloadFileHandle_sameShape (K : Collaborators) {w w1 : World} (src : Option CStr)
    (t : Nat) {r : Int} (h : DownloadFileHandle K w src t = some (r, w1)) :
    w.SameShape w1 := by
  unfold DownloadFileHandle at h
  split at h
  · simp at h; obtain ⟨-, rfl⟩ := h; exact sameShape_refl _
  · split at h
    · simp at h; obtain ⟨-, rfl⟩ := h; exact sameShape_refl _
    · split at h
      · simp at h; obtain ⟨-, rfl⟩ := h; exact sameShape_refl _
      · split at h
        · cases h
        · exact enqueueTransfer_sameShape h

theorem QueueTimerHandler_sameShape {w w1 : World} (m t : Nat)
    (h : QueueTimerHandler w m t = some w1) : w.SameShape w1 := by
  have h0 : w.SameShape
      (w.withSession { w.session with m_timerCount := w.session.m_timerCount + 1 }) := by
    simp [World.SameShape, World.withSession, World.profile]
  unfold QueueTimerHandler at h
  simp only [] at h
  generalize (if asDWORD t < asDWORD m then asDWORD t else asDWORD m) = ms at h
  generalize w.withSession { w.session with m_timerCount := w.session.m_timerCount + 1 } = W
    at h h0
  split at h
  · simp at h; subst h; exact h0
  · split at h
    · split at h
      · simp at h; subst h; exact h0
      · split at h
        · cases h
        · split at h
          · cases hn : NoOp W with
            | none => simp [hn] at h
            | some rw =>
              obtain ⟨r, w2⟩ := rw
              simp [hn] at h; subst h
              have h2 := NoOp_sameShape hn
              obtain ⟨a1, a2, a3, a4, a5, a6, a7⟩ := h0
              obtain ⟨b1, b2, b3, b4, b5, b6, b7⟩ := h2
              exact ⟨b1.trans a1, b2.trans a2, b3.trans a3, b4.trans a4, b5.trans a5,
                b6.trans a6, b7.trans a7⟩
          · simp at h; subst h; exact h0
    · cases h

theorem AbortOperation_sameShape (K : Collaborators) {w w1 : World} {r : Int}
    (h : AbortOperation K w = some (r, w1)) : w.SameShape w1 := by
  unfold AbortOperation at h
  split at h
  · cases h
  · rename_i c hc
    simp at h; obtain ⟨-, rfl⟩ := h
    simp [World.SameShape, World.withSession, World.profile, hc]

theorem AbortTransfer_sameShape (K : Collaborators) {w w1 : World} {r : Int}
    (h : AbortTransfer K w = some (r, w1)) : w.SameShape w1 := by
  unfold AbortTransfer at h
  split at h
  · cases h
  · rename_i c hc
    simp at h; obtain ⟨-, rfl⟩ := h
    simp [World.SameShape, World.withSession, World.profile, hc]

theorem CancelOperation_sameShape (K : Collaborators) {w w1 : World} (op : QueueOperation)
    {r : Int} (h : CancelOperation K w op = some (r, w1)) : w.SameShape w1 := by
  unfold CancelOperation at h
  split at h
  · cases h
  · rename_i c hc
    simp at h; obtain ⟨-, rfl⟩ := h
    simp [World.SameShape, World.withSession, World.profile, hc]

theorem FindPathObject_world {w w1 : World} (path : Option CStr) {r : Option FileObject}
    (h : FindPathObject w path = some (r, w1)) : w1 = w := by
  unfold FindPathObject at h
  split at h
  · simp at h; exact h.2.symm
  · split at h
    · cases h
    · split at h
      · simp at h; exact h.2.symm
      · split at h
        · cases h
        · simp at h
          obtain ⟨a, -, ha⟩ := h
          exact ha.2.symm

theorem GetRootObject_sameShape {w w1 : World} (cwd : Int) (pwd : Int × CStr)
    {r : Option FileObject} (h : GetRootObject w cwd pwd = some (r, w1)) : w.SameShape w1 := by
  unfold GetRootObject at h
  split at h
  · cases h
  · split at h
    · simp at h; obtain ⟨-, rfl⟩ := h; exact sameShape_refl _
    · simp only [] at h
      split at h
      · cases h
      · simp at h; obtain ⟨-, rfl⟩ := h
        simp [World.SameShape, World.profile]
      · split at h
        · cases h
        · rename_i root hroot
          simp at h; obtain ⟨-, rfl⟩ := h
          simp [World.SameShape, World.profile, hroot]

theorem StartSession_strongInvariant {w w1 : World} (i : Nat) {r : Int}
    (hinv : w.StrongInvariant) (h : StartSession w i = some (r, w1)) :
    w1.StrongInvariant := by
  unfold StartSession at h
  split at h
  · simp at h; obtain ⟨-, rfl⟩ := h; exact hinv
  · rename_i hrun
    simp at hrun
    obtain ⟨b1, b2, b3, b4⟩ := hinv.2 hrun
    split at h
    · cases h
    · rename_i p0 hp0
      simp only [] at h
      split at h
      · cases h
      · split at h
        · simp at h; obtain ⟨-, rfl⟩ := h
          refine ⟨fun hr => ?_, fun _ => ⟨rfl, b2, b3, b4⟩⟩
          simp [hrun] at hr
        · simp at h; obtain ⟨-, rfl⟩ := h
          refine ⟨fun _ => ?_, fun hr => by simp at hr⟩
          have hlt : i < w.profiles.length := by
            rcases Nat.lt_or_ge i w.profiles.length with hl | hl
            · exact hl
            · rw [List.getElem?_eq_none hl] at hp0; cases hp0
          simp [World.RunningOk, World.profile, List.getElem?_set_self hlt]

theorem TerminateSession_strongInvariant {w w1 : World} (answer : Int) {r : Int}
    (hinv : w.StrongInvariant) (h : TerminateSession w answer = some (r, w1)) :
    w1.StrongInvariant := by
  unfold TerminateSession at h
  split at h
  · simp at h; obtain ⟨-, rfl⟩ := h; exact hinv
  · rename_i hrun
    simp at hrun
    obtain ⟨-, a2, a3, a4, a5, a6, a7⟩ := hinv.1 hrun
    split at h
    · cases h
    · rename_i tq htq
      simp only [] at h
      split at h
      · simp at h; obtain ⟨-, rfl⟩ := h
        split
        · exact strongInvariant_of_sameShape hinv
            (by simp [World.SameShape, World.emit, World.profile])
        · exact hinv
      · have hp : (if decide (tq.GetQueueSize > 0) = true then w.emit Event.MessageBox
            else w).profile.isSome = true := by
          split <;> simpa [World.emit, World.profile] using a7
        obtain ⟨w2, es, ht, c1, c2, c3, c4, c5, -⟩ := teardown_spec _ (Or.inr hp)
        rw [ht] at h
        simp at h; obtain ⟨-, rfl⟩ := h
        exact ⟨fun hr => by simp [c1] at hr, fun _ => ⟨c2, c3, c4, c5⟩⟩

theorem step_strongInvariant {K : Collaborators} {w w1 : World} (hs : Step K w w1)
    (hinv : w.StrongInvariant) : w1.StrongInvariant := by
  cases hs with
  | startSession i r _ h => exact StartSession_strongInvariant i hinv h
  | connect timer r _ h => exact strongInvariant_of_sameShape hinv (Connect_sameShape h)
  | terminateSession answer r _ h => exact TerminateSession_strongInvariant answer hinv h
  | getDirectory dir r _ h => exact strongInvariant_of_sameShape hinv (GetDirectory_sameShape dir h)
  | getDirectoryHierarchy dir r _ h =>
    exact strongInvariant_of_sameShape hinv (GetDirectoryHierarchy_sameShape dir h)
  | downloadFileCache src r _ h =>
    exact strongInvariant_of_sameShape hinv (DownloadFileCache_sameShape K src h)
  | downloadFile src tgt d code r _ h =>
    exact strongInvariant_of_sameShape hinv (DownloadFile_sameShape K src tgt d code h)
  | downloadFileHandle src t r _ h =>
    exact strongInvariant_of_sameShape hinv (DownloadFileHandle_sameShape K src t h)
  | uploadFileCache src r _ h =>
    exact strongInvariant_of_sameShape hinv (UploadFileCache_sameShape K src h)
  | uploadFile src tgt d code r _ h =>
    exact strongInvariant_of_sameShape hinv (UploadFile_sameShape K src tgt d code h)
  | noOp r _ h => exact strongInvariant_of_sameShape hinv (NoOp_sameShape h)
  | mkDir path r _ h => exact strongInvariant_of_sameShape hinv (MkDir_sameShape path h)
  | rmDir path r _ h => exact strongInvariant_of_sameShape hinv (RmDir_sameShape path h)
  | mkFile path r _ h => exact strongInvariant_of_sameShape hinv (MkFile_sameShape path h)
  | deleteFile path r _ h => exact strongInvariant_of_sameShape hinv (DeleteFile_sameShape path h)
  | rename a b r _ h => exact strongInvariant_of_sameShape hinv (Rename_sameShape a b h)
  | abortOperation r _ h => exact strongInvariant_of_sameShape hinv (AbortOperation_sameShape K h)
  | abortTransfer r _ h => exact strongInvariant_of_sameShape hinv (AbortTransfer_sameShape K h)
  | cancelOperation op r _ h =>
    exact strongInvariant_of_sameShape hinv (CancelOperation_sameShape K op h)
  | getRootObject cwd pwd r _ h =>
    exact strongInvariant_of_sameShape hinv (GetRootObject_sameShape cwd pwd h)
  | findPathObject path r _ h => rw [FindPathObject_world path h]; exact hinv
  | setCertificates v r _ h =>
    simp [SetCertificates] at h; obtain ⟨-, rfl⟩ := h
    exact strongInvariant_of_sameShape hinv
      (by simp [World.SameShape, World.withSession, World.profile])
  | queueTimerHandler m t _ h =>
    exact strongInvariant_of_sameShape hinv (QueueTimerHandler_sameShape m t h)
  | mainWorker q hq =>
    exact strongInvariant_of_sameShape hinv
      (by simp [World.SameShape, World.withSession, World.profile, hq])
  | transferWorker q hq =>
    exact strongInvariant_of_sameShape hinv
      (by simp [World.SameShape, World.withSession, World.profile, hq])

theorem reachable_strongInvariant {K : Collaborators} {w : World} (h : Reachable K w) :
    w.StrongInvariant := by
  induction h with
  | init h c b profiles nextAddr events win st w0 hi =>
    unfold Init at hi
    simp [FTPSession.new] at hi
    split at hi
    · cases hi
    · simp at hi; subst hi
      simp [World.StrongInvariant, World.withSession]
  | step w w1 _ hs ih => exact step_strongInvariant hs ih

theorem exampleReachable : Reachable exampleCollaborators runningWorld :=
  Reachable.step idleWorld runningWorld
    (Reachable.init 5 3 true [exampleProfile, brokenProfile] 100 [] (some { hwnd := 7 })
      (some { cacheEnvironment := none }) idleWorld (by decide))
    (Step.startSession idleWorld 0 0 runningWorld (by decide))

/-- C3: in every state reachable from a constructed and initialised session
by calls of the public methods (`StartSession`, `Connect`, `TerminateSession`
with any answer of the user, the enqueueing commands, and the others),
firings of the keep-alive timer and steps of the queue workers, a running
session has both transport clients and both queues non-null, and a session
that is not running has all four null. -/
theorem session_invariant_reachable (K : Collaborators) (w : World) (h : Reachable K w) :
    (w.session.m_running = true →
      w.session.m_mainWrapper ≠ none ∧ w.session.m_transferWrapper ≠ none ∧
      w.session.m_mainQueue ≠ none ∧ w.session.m_transferQueue ≠ none) ∧
    (w.session.m_running = false →
      w.session.m_mainWrapper = none ∧ w.session.m_transferWrapper = none ∧
      w.session.m_mainQueue = none ∧ w.session.m_transferQueue = none) := by
  obtain ⟨ha, hb⟩ := reachable_strongInvariant h
  refine ⟨fun hr => ?_, hb⟩
  obtain ⟨-, a2, a3, a4, a5, -, -⟩ := ha hr
  refine ⟨?_, ?_, ?_, ?_⟩ <;> intro hn <;> simp [hn] at a2 a3 a4 a5

theorem session_invariant_reachable_witness :
    Reachable exampleCollaborators runningWorld ∧
    ((runningWorld.session.m_running = true →
      runningWorld.session.m_mainWrapper ≠ none ∧
      runningWorld.session.m_transferWrapper ≠ none ∧
      runningWorld.session.m_mainQueue ≠ none ∧ runningWorld.session.m_transferQueue ≠ none) ∧
    (runningWorld.session.m_running = false →
      runningWorld.session.m_mainWrapper = none ∧ runningWorld.session.m_transferWrapper = none ∧
      runningWorld.session.m_mainQueue = none ∧ runningWorld.session.m_transferQueue = none)) :=
  ⟨exampleReachable,
   session_invariant_reachable exampleCollaborators runningWorld exampleReachable⟩

/-- C4, counterexample: the claim requires `TerminateSession` to fail with -1
on every session that is not running; on the initialised, never started
session `idleWorld` it returns 0. -/
theorem TerminateSession_not_running_counterexample :
    ¬ (∀ (w : World) (answer : Int), w.session.m_running = false →
        TerminateSession w answer = some (-1, w)) := by
  intro h
  have h1 := h idleWorld IDYES (by decide)
  revert h1
  decide

/-- C4, amended: on a session that is not running, `Connect`, `GetDirectory`,
`GetDirectoryHierarchy`, `DownloadFileCache`, `DownloadFile`,
`DownloadFileHandle`, `UploadFileCache`, `UploadFile`, `NoOp`, `MkDir`,
`RmDir`, `MkFile`, `DeleteFile` and `Rename` return -1 and leave the whole
world (session state, queues, profiles, events) unchanged, whatever their
arguments; `TerminateSession` returns 0 and changes nothing. -/
theorem not_running_calls_fail (K : Collaborators) (w : World)
    (h : w.session.m_running = false) :
    (∀ answer, TerminateSession w answer = some (0, w)) ∧
    (∀ timer, Connect w timer = some (-1, w)) ∧
    (∀ dir, GetDirectory w dir = some (-1, w)) ∧
    (∀ dir, GetDirectoryHierarchy w dir = some (-1, w)) ∧
    (∀ src, DownloadFileCache K w src = some (-1, w)) ∧
    (∀ src tgt d code, DownloadFile K w src tgt d code = some (-1, w)) ∧
    (∀ src t, DownloadFileHandle K w src t = some (-1, w)) ∧
    (∀ src, UploadFileCache K w src = some (-1, w)) ∧
    (∀ src tgt d code, UploadFile K w src tgt d code = some (-1, w)) ∧
    NoOp w = some (-1, w) ∧
    (∀ path, MkDir w path = some (-1, w)) ∧
    (∀ path, RmDir w path = some (-1, w)) ∧
    (∀ path, MkFile w path = some (-1, w)) ∧
    (∀ path, DeleteFile w path = some (-1, w)) ∧
    (∀ a b, Rename w a b = some (-1, w)) := by
  refine ⟨?_, ?_, ?_, ?_, ?_, ?_, ?_, ?_, ?_, ?_, ?_, ?_, ?_, ?_, ?_⟩ <;> intros <;>
    simp [TerminateSession, Connect, GetDirectory, GetDirectoryHierarchy, DownloadFileCache,
      DownloadFile, DownloadFileHandle, UploadFileCache, UploadFile, NoOp, MkDir, RmDir,
      MkFile, DeleteFile, Rename, h]

theorem not_running_calls_fail_witness :
    idleWorld.session.m_running = false ∧
    Connect idleWorld none = some (-1, idleWorld) ∧
    DownloadFile exampleCollaborators idleWorld (some ['f']) (some ['g']) false 0 =
      some (-1, idleWorld) ∧
    TerminateSession idleWorld IDYES = some (0, idleWorld) :=
  ⟨by decide,
   (not_running_calls_fail exampleCollaborators idleWorld (by decide)).2.1 none,
   (not_running_calls_fail exampleCollaborators idleWorld (by decide)).2.2.2.2.2.1
      (some ['f']) (some ['g']) false 0,
   (not_running_calls_fail exampleCollaborators idleWorld (by decide)).1 IDYES⟩

/-- `AbortOperation`, `AbortTransfer` and `CancelOperation` do not test
`m_running`: on a session without clients and queues (every reachable
session that is not running) they dereference a null pointer. -/
theorem abort_without_clients (K : Collaborators) (w : World) (op : QueueOperation)
    (h1 : w.session.m_mainWrapper = none) (h2 : w.session.m_transferWrapper = none)
    (h3 : w.session.m_transferQueue = none) :
    AbortOperation K w = none ∧ AbortTransfer K w = none ∧ CancelOperation K w op = none := by
  simp [AbortOperation, AbortTransfer, CancelOperation, h1, h2, h3]

theorem extendPath_length_le : ∀ (toks : List CStr) (path : CStr),
    path.length ≤ (extendPath path toks).length := by
  intro toks
  induction toks with
  | nil => intro path; exact le_refl _
  | cons t rest ih =>
    intro path
    have := ih (path ++ t ++ ['/'])
    simp only [extendPath]
    simp only [List.length_append] at this
    omega

theorem sprintfPath_fits (currentPath pathEntry : CStr)
    (h : (currentPath ++ pathEntry ++ ['/']).length < MAX_PATH) :
    GetDirectoryHierarchy.sprintfPath currentPath pathEntry =
      some (currentPath ++ pathEntry ++ ['/']) := by
  unfold GetDirectoryHierarchy.sprintfPath
  rw [if_neg (by omega)]

theorem sprintfPath_extendPath (currentPath pathEntry : CStr) (rest : List CStr)
    (h : (extendPath currentPath (pathEntry :: rest)).length < MAX_PATH) :
    GetDirectoryHierarchy.sprintfPath currentPath pathEntry =
      some (currentPath ++ pathEntry ++ ['/']) := by
  apply sprintfPath_fits
  have := extendPath_length_le rest (currentPath ++ pathEntry ++ ['/'])
  simp only [extendPath] at h
  omega

/-- C6, counterexample: on the tree `/` → `a` → `b` (both with UI data, `b`
without children) the call for `/a/b/c` does not enqueue a listing whose
prefetch list is `[/a/b]`. -/
theorem GetDirectoryHierarchy_prefetch_counterexample :
    GetDirectoryHierarchy treeWorld "/a/b/c".toList ≠
      some (0, { treeWorld with
        session := { treeWorld.session with
          m_mainQueue := some
            { client := ClientId.main
              ops := [QueueOperation.QueueGetDir 7 "/a/b/c".toList ["/a/b".toList]]
              active := true } } }) := by
  decide

/-- C6, amended: on a running session whose root has a child `a` with UI
data, `a` has a child `b` with UI data and `b` has no children,
`GetDirectoryHierarchy("/a/b/c")` returns 0 and appends to the control queue
exactly one listing operation with target `/a/b/c` and prefetch list
`["/a/b/"]` (the entry is written with its trailing slash); everything
else, the transfer queue included, is unchanged. -/
theorem GetDirectoryHierarchy_prefetch (w : World) (root a b : FileObject) (q : FTPQueue)
    (hrun : w.session.m_running = true) (hq : w.session.m_mainQueue = some q)
    (hroot : w.session.m_rootObject = some root)
    (ha : root.GetChildByName ['a'] = some a) (had : a.GetData ≠ 0)
    (hb : a.GetChildByName ['b'] = some b) (hbd : b.GetData ≠ 0)
    (hbc : b.GetChildCount = 0) :
    GetDirectoryHierarchy w "/a/b/c".toList =
      some (0, { w with
        session := { w.session with
          m_mainQueue := some
            { q with ops := q.ops ++
                [QueueOperation.QueueGetDir w.session.m_hNotify "/a/b/c".toList
                  ["/a/b/".toList]] } } }) := by
  have htok : strtokAll "/a/b/c".toList = [['a'], ['b'], ['c']] := by decide
  have hbn : b.GetChildByName ['c'] = none := by
    have : b.children = [] := List.length_eq_zero.mp hbc
    simp [FileObject.GetChildByName, this]
  have h1 : GetDirectoryHierarchy.sprintfPath ['/'] ['a'] = some "/a/".toList := by decide
  have h2 : GetDirectoryHierarchy.sprintfPath "/a/".toList ['b'] = some "/a/b/".toList := by
    decide
  have h3 : GetDirectoryHierarchy.sprintfPath "/a/b/".toList ['c'] = some "/a/b/c/".toList := by
    decide
  simp only [String.toList] at h1 h2 h3
  simp [GetDirectoryHierarchy, hrun, hroot, htok, GetDirectoryHierarchy.walk, ha, had, hb,
    hbd, hbn, hbc, enqueueMain, hq, World.withSession, FTPQueue.AddQueueOp, h1, h2, h3]

theorem GetDirectoryHierarchy_prefetch_witness :
    GetDirectoryHierarchy treeWorld "/a/b/c".toList =
      some (0, { treeWorld with
        session := { treeWorld.session with
          m_mainQueue := some
            { client := ClientId.main
              ops := [QueueOperation.QueueGetDir 7 "/a/b/c".toList ["/a/b/".toList]]
              active := true } } }) :=
  GetDirectoryHierarchy_prefetch treeWorld exampleTree
    (exampleNode 101 ['/', 'a'] ['a'] 2 100
      [exampleNode 102 ['/', 'a', '/', 'b'] ['b'] 3 101 []])
    (exampleNode 102 ['/', 'a', '/', 'b'] ['b'] 3 101 [])
    { client := ClientId.main, ops := [], active := true }
    (by decide) (by decide) (by decide) (by decide) (by decide) (by decide) (by decide)
    (by decide)

theorem strrchrAux_bound (c : Char) : ∀ (s : CStr) (i : Nat) (last : Option Nat) (j : Nat),
    strrchrAux c s i last = some j → last = some j ∨ (i ≤ j ∧ j < i + s.length) := by
  intro s
  induction s with
  | nil => intro i last j h; simp [strrchrAux] at h; exact Or.inl h
  | cons x xs ih =>
    intro i last j h
    simp only [strrchrAux] at h
    rcases ih _ _ _ h with h1 | ⟨h1, h2⟩
    · by_cases hx : x = c
      · simp [hx] at h1; right; simp; omega
      · simp [hx] at h1; exact Or.inl h1
    · right; simp; omega

theorem strrchr_lt (s : CStr) (c : Char) (j : Nat) (h : strrchr s c = some j) :
    j < s.length := by
  rcases strrchrAux_bound c s 0 none j h with h1 | ⟨-, h2⟩
  · cases h1
  · omega

theorem strrchrAux_isSome (c : Char) : ∀ (s : CStr) (i : Nat) (last : Option Nat),
    last.isSome = true → (strrchrAux c s i last).isSome = true := by
  intro s
  induction s with
  | nil => intro i last h; simpa [strrchrAux] using h
  | cons x xs ih =>
    intro i last h
    simp only [strrchrAux]
    apply ih
    split <;> simp [h]

theorem strrchr_head (s : CStr) (c : Char) (h : s.head? = some c) :
    (strrchr s c).isSome = true := by
  cases s with
  | nil => simp at h
  | cons x xs =>
    simp at h
    subst h
    simp only [strrchr, strrchrAux]
    exact strrchrAux_isSome _ _ _ _ (by simp)

theorem SetParent_addr (o : FileObject) (p : Nat) : (o.SetParent p).addr = o.addr := by
  cases o; rfl

theorem nodeCountList_append (xs ys : List FileObject) :
    FileObject.nodeCountList (xs ++ ys) =
      FileObject.nodeCountList xs + FileObject.nodeCountList ys := by
  induction xs with
  | nil => simp [FileObject.nodeCountList]
  | cons x xs ih => simp [FileObject.nodeCountList, ih]; omega

theorem nodeCount_eq (o : FileObject) :
    o.nodeCount = 1 + FileObject.nodeCountList o.children := by
  cases o; simp [FileObject.nodeCount, FileObject.children]

theorem nodeCount_pos (o : FileObject) : 0 < o.nodeCount := by
  rw [nodeCount_eq]; omega

theorem SetParent_children (o : FileObject) (p : Nat) :
    (o.SetParent p).children = o.children := by
  cases o; rfl

theorem loop_absolute : ∀ (fuel : Nat) (dir : CStr) (prev : FileObject) (next : Nat),
    dir.length < fuel → dir.head? = some '/' →
    ∃ top n, GetRootObject.loop fuel dir prev next = some (some top, n) := by
  intro fuel
  induction fuel with
  | zero => intro dir prev next h; omega
  | succ fuel ih =>
    intro dir prev next h hh
    simp only [GetRootObject.loop]
    obtain ⟨j, hj⟩ := Option.isSome_iff_exists.mp (strrchr_head dir '/' hh)
    cases j with
    | zero => simp [hj]
    | succ i =>
      simp only [hj]
      apply ih
      · have := strrchr_lt dir '/' _ hj
        simp; omega
      · cases dir with
        | nil => simp at hh
        | cons x xs => simpa using hh

/-- Two calls of `GetRootObject()` evaluated: on the root without children of
`runningWorld`, the working directory resolving to `/a` both times, the
first call grafts the node `/a`; the second call allocates a node `/a`
again (the allocator advances) and the root, which has a child of that
name, does not take it. -/
theorem second_chain_not_attached :
    GetRootObject runningWorld 0 (0, ['/', 'a']) =
      some (some rootOnce,
        { runningWorld with
          session := { runningWorld.session with m_rootObject := some rootOnce }
          nextAddr := 102 }) ∧
    GetRootObject
        { runningWorld with
          session := { runningWorld.session with m_rootObject := some rootOnce }
          nextAddr := 102 } 0 (0, ['/', 'a']) =
      some (some rootOnce,
        { runningWorld with
          session := { runningWorld.session with m_rootObject := some rootOnce }
          nextAddr := 103 }) ∧
    rootOnce.childrenNamed ['a'] = 1 ∧ rootOnce.uniqueNames = true ∧ rootOnce.nodeCount = 2 := by
  decide

theorem toInt32_range (z : Int) : -(2 ^ 31) ≤ toInt32 z ∧ toInt32 z < 2 ^ 31 := by
  unfold toInt32
  have h1 := Int.emod_nonneg (z + 2 ^ 31) (by norm_num : (2 ^ 32 : Int) ≠ 0)
  have h2 := Int.emod_lt_of_pos (z + 2 ^ 31) (by norm_num : (0 : Int) < 2 ^ 32)
  constructor <;> omega

theorem toDWORD_of_pos (z : Int) (h0 : 0 ≤ z) (h1 : z < 2 ^ 31) : (toDWORD z : Int) = z := by
  unfold toDWORD
  rw [Int.emod_eq_of_lt h0 (by omega)]
  exact Int.toNat_of_nonneg h0

/-- C9: the keep-alive decision.  On a running session, at a firing of the
timer that is not the first (`m_timerCount ≠ 0`), with configured interval
`n = GetNoOp() > 0` and idle times `m` and `t` (DWORD values), the handler
appends exactly one no-op operation to the control queue if
`min m t > n` and leaves the control queue as it is otherwise; apart from
that only `m_timerCount` changes, so the transfer queue is never touched. -/
theorem QueueTimerHandler_decision (w : World) (m t : Nat) (p : FTPProfile) (q : FTPQueue)
    (hrun : w.RunningOk) (hp : w.profile = some p) (hq : w.session.m_mainQueue = some q)
    (hcount : w.session.m_timerCount ≠ 0) (hn : 0 < p.GetNoOp)
    (hm : m < 2 ^ 32) (ht : t < 2 ^ 32) :
    QueueTimerHandler w m t =
      some (w.withSession
        { w.session with
          m_timerCount := w.session.m_timerCount + 1
          m_mainQueue := some
            (if p.GetNoOp < ((min m t : Nat) : Int) then
              q.AddQueueOp (QueueOperation.QueueNoOp w.session.m_hNotify)
            else q) }) := by
  obtain ⟨h1, h2, h3, -, -, -, -⟩ := hrun
  obtain ⟨mw, hmw⟩ := Option.isSome_iff_exists.mp h2
  obtain ⟨tw, htw⟩ := Option.isSome_iff_exists.mp h3
  have hr := toInt32_range p.noOp
  have hd : (toDWORD p.GetNoOp : Int) = p.GetNoOp :=
    toDWORD_of_pos _ (le_of_lt hn) hr.2
  have hm' : asDWORD m = m := Nat.mod_eq_of_lt hm
  have ht' : asDWORD t = t := Nat.mod_eq_of_lt ht
  have hmin : (if t < m then t else m) = min m t := by
    split <;> omega
  have hcond : ((if t < m then t else m) > toDWORD p.GetNoOp) ↔
      p.GetNoOp < ((min m t : Nat) : Int) := by
    rw [hmin]
    generalize min m t = k
    generalize toDWORD p.GetNoOp = d at hd
    omega
  obtain ⟨⟨cp, st, mw0, tw0, mq, tq, run, hno, win, isInit, root, cert, th, tc, ti⟩,
    profiles, next, events⟩ := w
  simp only at h1 hmw htw hq hcount
  subst h1 hmw htw hq
  simp only [World.profile] at hp
  by_cases hz : m = 0 ∧ t = 0
  · obtain ⟨rfl, rfl⟩ := hz
    have a0 : asDWORD 0 = 0 := rfl
    have hneg : ¬ (p.GetNoOp < ((min 0 0 : Nat) : Int)) := by simp; omega
    simp only [QueueTimerHandler, World.withSession, hcount, a0, hneg, if_false, and_self,
      if_true]
  · by_cases hc : p.GetNoOp < ((min m t : Nat) : Int)
    · have hc' := hcond.mpr hc
      simp only [QueueTimerHandler, World.withSession, World.profile, hcount, hm', ht', hz,
        if_false, hp, hc', hc, if_true, NoOp, enqueueMain]
      simp
    · have hc' : ¬ ((if t < m then t else m) > toDWORD p.GetNoOp) := fun h => hc (hcond.mp h)
      simp only [QueueTimerHandler, World.withSession, World.profile, hcount, hm', ht', hz,
        if_false, hp, hc', hc]

theorem QueueTimerHandler_decision_witness :
    QueueTimerHandler
        (runningWorld.withSession { runningWorld.session with m_timerCount := 1 }) 100 40 =
      some ((runningWorld.withSession { runningWorld.session with m_timerCount := 1 }).withSession
        { (runningWorld.withSession { runningWorld.session with m_timerCount := 1 }).session with
          m_timerCount :=
            (runningWorld.withSession
              { runningWorld.session with m_timerCount := 1 }).session.m_timerCount + 1
          m_mainQueue := some
            (if ({ exampleProfile with refCount := 2 } : FTPProfile).GetNoOp <
                ((min 100 40 : Nat) : Int) then
              ({ client := ClientId.main, ops := [], active := true } : FTPQueue).AddQueueOp
                (QueueOperation.QueueNoOp
                  (runningWorld.withSession
                    { runningWorld.session with m_timerCount := 1 }).session.m_hNotify)
            else { client := ClientId.main, ops := [], active := true }) }) :=
  QueueTimerHandler_decision
    (runningWorld.withSession { runningWorld.session with m_timerCount := 1 }) 100 40
    { exampleProfile with refCount := 2 }
    { client := ClientId.main, ops := [], active := true }
    (by decide) (by decide) (by decide) (by decide) (by decide) (by decide) (by decide)

/-- The skip of the handler: at a firing with `m_timerCount = 0` nothing is
appended to any queue, whatever the idle times; only the counter moves. -/
theorem QueueTimerHandler_first_firing (w : World) (m t : Nat)
    (h : w.session.m_timerCount = 0) :
    QueueTimerHandler w m t = some (w.withSession { w.session with m_timerCount := 1 }) := by
  simp [QueueTimerHandler, h]

/-- `Connect()` never writes `m_timerCount`: the counter that the handler
tests is only reset by `Init` and by `TerminateSession`. -/
theorem Connect_keeps_timerCount (w w1 : World) (timer : Option Nat) (r : Int)
    (h : Connect w timer = some (r, w1)) :
    w1.session.m_timerCount = w.session.m_timerCount := by
  unfold Connect at h
  split at h
  · simp at h; rw [← h.2]
  · cases hq : w.session.m_mainQueue with
    | none => simp [enqueueMain, hq] at h
    | some q =>
      simp only [enqueueMain, hq] at h
      split at h
      · cases h
      · split at h
        · simp at h; rw [← h.2]; rfl
        · simp at h; rw [← h.2]; rfl

/-- C10, evaluation of the code at the failing input: `Connect()`, one
firing of the timer (skipped), a second `Connect()` in the same session,
and the first firing after that second `Connect()`, the clients reporting
100 idle seconds with an interval of 30.  Before the last firing the
control queue holds the two connect operations; the firing appends a no-op
operation. -/
theorem keepalive_after_second_connect :
    traceSecondConnect.bind World.mainOps =
      some [QueueOperation.QueueConnect 7 0, QueueOperation.QueueConnect 7 0] ∧
    traceFiringAfterSecondConnect.bind World.mainOps =
      some [QueueOperation.QueueConnect 7 0, QueueOperation.QueueConnect 7 0,
        QueueOperation.QueueNoOp 7] := by
  decide

/-- C11, counterexample: with the interval -1 (not > 0) `Connect()` calls
`CreateTimerQueueTimer`, with the period 4294966796 ms, and sets the
timer-initialised flag. -/
theorem Connect_negative_interval_counterexample :
    Connect negativeIntervalWorld (some 9) =
      some (0,
        { negativeIntervalWorld with
          session := { negativeIntervalWorld.session with
            m_mainQueue := some
              { client := ClientId.main, ops := [QueueOperation.QueueConnect 7 0],
                active := true }
            m_timerHandle := 9
            m_timerIsInit := true }
          events := [Event.CreateTimerQueueTimer 4294966796 true] }) := by
  decide

/-- C11, amended: `Connect()` on a running session appends exactly one connect
operation to the control queue and returns 0.  With the interval
`n = GetNoOp()`: when `n = 0` nothing else happens (no timer call, the
timer-initialised flag and the handle keep their values); when `n ≠ 0` it
calls `CreateTimerQueueTimer` once, sets the flag (whether or not the call
succeeds) and stores the handle of a successful call; and when `n > 0` and
`n * 1000 + 500` fits a 32-bit `int`, the period of that call is
`n * 1000 + 500` milliseconds. -/
theorem Connect_arms_timer (w : World) (timer : Option Nat) (p : FTPProfile) (q : FTPQueue)
    (hrun : w.session.m_running = true) (hp : w.profile = some p)
    (hq : w.session.m_mainQueue = some q) :
    (p.GetNoOp = 0 →
      Connect w timer =
        some (0, w.withSession
          { w.session with
            m_mainQueue := some
              (q.AddQueueOp (QueueOperation.QueueConnect w.session.m_hNotify 0)) })) ∧
    (p.GetNoOp ≠ 0 →
      Connect w timer =
        some (0,
          { w with
            session := { w.session with
              m_mainQueue := some
                (q.AddQueueOp (QueueOperation.QueueConnect w.session.m_hNotify 0))
              m_timerHandle := timer.getD w.session.m_timerHandle
              m_timerIsInit := true }
            events := w.events ++
              [Event.CreateTimerQueueTimer (timerPeriod p.GetNoOp) timer.isSome] })) ∧
    (0 < p.GetNoOp → p.GetNoOp * 1000 + 500 < 2 ^ 31 →
      (timerPeriod p.GetNoOp : Int) = p.GetNoOp * 1000 + 500) := by
  obtain ⟨⟨cp, st, mw0, tw0, mq, tq, run, hno, win, isInit, root, cert, th, tc, ti⟩,
    profiles, next, events⟩ := w
  simp only at hrun hq
  subst hrun hq
  simp only [World.profile] at hp
  refine ⟨?_, ?_, ?_⟩
  · intro hn
    simp [Connect, enqueueMain, World.withSession, World.profile, hp, hn]
  · intro hn
    cases timer <;>
      simp [Connect, enqueueMain, World.withSession, World.emit, World.profile, hp, hn,
        timerPeriod]
  · intro h0 h1
    have e1 : toInt32 (p.GetNoOp * 1000) = p.GetNoOp * 1000 := by
      unfold toInt32
      rw [Int.emod_eq_of_lt (by omega) (by omega)]; omega
    have e2 : toInt32 (p.GetNoOp * 1000 + 500) = p.GetNoOp * 1000 + 500 := by
      unfold toInt32
      rw [Int.emod_eq_of_lt (by omega) (by omega)]; omega
    unfold timerPeriod
    rw [e1, e2]
    unfold toDWORD
    rw [Int.emod_eq_of_lt (by omega) (by omega)]
    exact Int.toNat_of_nonneg (by omega)

theorem Connect_arms_timer_witness :
    Connect runningWorld (some 9) =
      some (0,
        { runningWorld with
          session := { runningWorld.session with
            m_mainQueue := some
              (({ client := ClientId.main, ops := [], active := true } : FTPQueue).AddQueueOp
                (QueueOperation.QueueConnect runningWorld.session.m_hNotify 0))
            m_timerHandle := (some 9 : Option Nat).getD runningWorld.session.m_timerHandle
            m_timerIsInit := true }
          events := runningWorld.events ++
            [Event.CreateTimerQueueTimer
              (timerPeriod ({ exampleProfile with refCount := 2 } : FTPProfile).GetNoOp)
              (some 9 : Option Nat).isSome] }) ∧
    (timerPeriod ({ exampleProfile with refCount := 2 } : FTPProfile).GetNoOp : Int) =
      ({ exampleProfile with refCount := 2 } : FTPProfile).GetNoOp * 1000 + 500 ∧
    timerPeriod ({ exampleProfile with refCount := 2 } : FTPProfile).GetNoOp = 30500 :=
  ⟨(Connect_arms_timer runningWorld (some 9) { exampleProfile with refCount := 2 }
      { client := ClientId.main, ops := [], active := true }
      (by decide) (by decide) (by decide)).2.1 (by decide),
   (Connect_arms_timer runningWorld (some 9) { exampleProfile with refCount := 2 }
      { client := ClientId.main, ops := [], active := true }
      (by decide) (by decide) (by decide)).2.2 (by decide) (by decide),
   by decide⟩

/-- C12, evaluation of the code at the failing input: the tree `/` → `a` →
`b` where `a` has no UI data and `b` has, and the input `/a/b`.  The walk
collects `/` and `/a/` and then passes `b` without collecting it: the last
collected entry is `/a/`, not the input directory, and after it is removed
the listing operation receives `["/"]`, which lacks the parent `/a/` of
the input directory. -/
theorem GetDirectoryHierarchy_gap :
    GetDirectoryHierarchy.walk (strtokAll "/a/b".toList) gapWorld.session.m_rootObject
        ['/'] [] = some (Except.ok ["/".toList, "/a/".toList]) ∧
    extendPath ['/'] (strtokAll "/a/b".toList) = "/a/b/".toList ∧
    GetDirectoryHierarchy gapWorld "/a/b".toList =
      some (0, { gapWorld with
        session := { gapWorld.session with
          m_mainQueue := some
            { client := ClientId.main
              ops := [QueueOperation.QueueGetDir 7 "/a/b".toList ["/".toList]]
              active := true } } }) := by
  refine ⟨rfl, by decide, by decide⟩


theorem walk_unlisted : ∀ (toks : List CStr) (path : CStr) (dirs : List CStr),
    dirs ≠ [] → (extendPath path toks).length < MAX_PATH →
    GetDirectoryHierarchy.walk toks none path dirs =
      some (Except.ok (dirs ++ extensions path toks)) := by
  intro toks
  induction toks with
  | nil => intro path dirs _ _; simp [GetDirectoryHierarchy.walk, extensions]
  | cons t rest ih =>
    intro path dirs hd hfit
    have hl : dirs.length ≠ 0 := fun h => hd (List.length_eq_zero.mp h)
    simp only [GetDirectoryHierarchy.walk, hl, if_false, extensions,
      sprintfPath_extendPath path t rest hfit]
    rw [ih _ _ (by simp) hfit]
    simp

theorem walk_shown : ∀ (pre rest : List CStr) (cur node : FileObject) (path : CStr)
    (dirs : List CStr),
    cur.descendShown pre = some node → (extendPath path pre).length < MAX_PATH →
    GetDirectoryHierarchy.walk (pre ++ rest) (some cur) path dirs =
      GetDirectoryHierarchy.walk rest (some node) (extendPath path pre) dirs := by
  intro pre
  induction pre with
  | nil =>
    intro rest cur node path dirs h _
    simp [FileObject.descendShown] at h
    subst h
    simp [extendPath]
  | cons s pre ih =>
    intro rest cur node path dirs h hfit
    simp only [FileObject.descendShown] at h
    cases hc : cur.GetChildByName s with
    | none => simp [hc] at h
    | some c =>
      simp only [hc] at h
      split at h
      · rename_i hdata
        simp only [List.cons_append, GetDirectoryHierarchy.walk, hc, extendPath,
          sprintfPath_extendPath path s pre hfit]
        rw [if_pos hdata]
        exact ih rest c node _ dirs h hfit
      · cases h

theorem extensions_getLast (toks : List CStr) : ∀ (path : CStr) (t : CStr),
    (extensions path (t :: toks)).getLast? = some (extendPath path (t :: toks)) := by
  induction toks with
  | nil => intro path t; simp [extensions, extendPath]
  | cons u toks ih =>
    intro path t
    have := ih (path ++ t ++ ['/']) u
    simp only [extensions, extendPath] at this ⊢
    rw [List.getLast?_cons_cons]
    exact this

/-- Where the prefetch list is as the source comment describes it: the
directory path of the input fits `char currentPath[MAX_PATH]`, the walk
descends along `pre` through nodes shown in the tree view and arrives at a
node without children (never listed).  Then the collected list is the
directory of `pre` followed by the directories of all longer prefixes of
the input path; its last entry is the input directory, and the listing
operation receives the list without that entry. -/
theorem GetDirectoryHierarchy_unlisted (w : World) (inputDir : CStr) (root node : FileObject)
    (q : FTPQueue) (pre : List CStr) (seg : CStr) (post : List CStr)
    (hrun : w.session.m_running = true) (hq : w.session.m_mainQueue = some q)
    (hroot : w.session.m_rootObject = some root)
    (htok : strtokAll inputDir = pre ++ seg :: post)
    (hwalk : root.descendShown pre = some node) (hkids : node.GetChildCount = 0)
    (hfit : (extendPath ['/'] (strtokAll inputDir)).length < MAX_PATH) :
    GetDirectoryHierarchy.walk (strtokAll inputDir) (some root) ['/'] [] =
      some (Except.ok
        (extendPath ['/'] pre :: extensions (extendPath ['/'] pre) (seg :: post))) ∧
    (extensions (extendPath ['/'] pre) (seg :: post)).getLast? =
      some (extendPath ['/'] (strtokAll inputDir)) ∧
    GetDirectoryHierarchy w inputDir =
      some (0, w.withSession
        { w.session with
          m_mainQueue := some
            (q.AddQueueOp (QueueOperation.QueueGetDir w.session.m_hNotify inputDir
              (extendPath ['/'] pre ::
                extensions (extendPath ['/'] pre) (seg :: post)).dropLast)) }) := by
  have hnone : node.GetChildByName seg = none := by
    have : node.children = [] := List.length_eq_zero.mp hkids
    simp [FileObject.GetChildByName, this]
  have hext : ∀ (a b : List CStr) (p : CStr),
      extendPath p (a ++ b) = extendPath (extendPath p a) b := by
    intro a
    induction a with
    | nil => intro b p; rfl
    | cons x a ih => intro b p; simp only [List.cons_append, extendPath]; exact ih b _
  rw [htok, hext] at hfit
  have hfit1 : (extendPath ['/'] pre).length < MAX_PATH := by
    have := extendPath_length_le (seg :: post) (extendPath ['/'] pre)
    omega
  have hw : GetDirectoryHierarchy.walk (strtokAll inputDir) (some root) ['/'] [] =
      some (Except.ok
        (extendPath ['/'] pre :: extensions (extendPath ['/'] pre) (seg :: post))) := by
    rw [htok, walk_shown pre (seg :: post) root node _ _ hwalk hfit1]
    simp only [GetDirectoryHierarchy.walk, hnone, hkids, ne_eq, not_true_eq_false, if_false,
      List.length_nil, if_true, List.nil_append,
      sprintfPath_extendPath (extendPath ['/'] pre) seg post hfit]
    rw [walk_unlisted post _ _ (by simp) hfit]
    simp [extensions]
  refine ⟨hw, ?_, ?_⟩
  · rw [extensions_getLast, htok, hext]
  · simp only [GetDirectoryHierarchy, hrun, hroot, hw, enqueueMain, hq]
    simp

end NppFTP
